import Mathlib

/-!
Verification of the user-state / goals engine of the `bigbadbotsbot` repository.

The Python source (`src/goals_system.py`, `src/state.py`, `src/handlers.py`) is
shallowly embedded: Python floats that only ever hold decimal values are
modelled as rationals (`ℚ`), `datetime.utcnow()` timestamps are modelled as an
explicit `now : Int` argument counting seconds, Python `round(x, 3)` is
modelled as rounding `x * 1000` to the nearest integer (tie-breaking
differences between Python banker rounding on binary floats and `round` are
irrelevant to every property proved here, which only uses monotonicity and
exactness on integers), and in-place mutation of dictionaries becomes explicit
state passing.  Python `lst[-n:]` is modelled by `takeLast`, Python dicts with
string keys by association lists updated in insertion order.
-/

/-- Python `lst[-n:]` (for `n > 0`): the last `n` elements of the list. -/
def takeLast {α : Type} (n : Nat) (l : List α) : List α :=
  l.drop (l.length - n)

/-- Python dict update `d[k] = v` on an association list: replaces the first
binding of `k`, or appends a new binding (dict insertion order). -/
def dictSet {β : Type} : List (String × β) → String → β → List (String × β)
  | [], k, v => [(k, v)]
  | (k', v') :: rest, k, v =>
    if k' = k then (k, v) :: rest else (k', v') :: dictSet rest k v

/-- Python dict read `d.get(k, 0)` on an association list. -/
def dictGet {β : Type} (d : List (String × β)) (k : String) (dflt : β) : β :=
  ((d.find? (fun kv => kv.1 = k)).map (fun kv => kv.2)).getD dflt

namespace GoalsSys

/-- Python `GoalStatus` enum from `goals_system.py` (lines 11-16). -/
inductive GoalStatus where
  | active
  | completed
  | paused
  | failed
  | archived
deriving DecidableEq

/-- A milestone dict as produced by `Goal.add_milestone` (lines 49-60);
`completedAt` is added by `complete_milestone`. -/
structure Milestone where
  id : Nat
  title : String
  description : String
  completed : Bool
  createdAt : Int
  completedAt : Option Int
deriving DecidableEq

/-- A check-in dict as produced by `Goal.add_check_in` (lines 81-87). -/
structure CheckIn where
  timestamp : Int
  note : String
  mood : String
  progress : ℚ
  progressDelta : ℚ
deriving DecidableEq

/-- The `Goal` object of `goals_system.py` (lines 24-47).  Fields that no
verified operation reads or writes (tags, dependencies, linked habits, notes,
estimated/actual hours) are omitted. -/
structure Goal where
  id : String
  userId : Int
  title : String
  description : String
  priority : Nat
  status : GoalStatus
  createdAt : Int
  deadline : Option Int
  progress : ℚ
  milestones : List Milestone
  checkIns : List CheckIn
  completionDate : Option Int
deriving DecidableEq

/-- Python `Goal.__init__` (lines 27-47): status ACTIVE, progress 0.0, empty lists. -/
def mkGoal (now : Int) (userId : Int) (title : String) : Goal :=
  { id := "goal_" ++ toString userId ++ "_" ++ toString now
    userId := userId
    title := title
    description := ""
    priority := 3
    status := GoalStatus.active
    createdAt := now
    deadline := none
    progress := 0
    milestones := []
    checkIns := []
    completionDate := none }

/-- Python `Goal._update_progress` (lines 72-77): no-op when there are no milestones,
otherwise `progress = completed / total`. -/
def updateProgressOfGoal (g : Goal) : Goal :=
  if g.milestones = [] then g
  else
    { g with progress :=
        (((g.milestones.filter (fun m => m.completed)).length : ℚ) /
          (g.milestones.length : ℚ)) }

/-- Python `Goal.add_milestone` (lines 49-60): append a fresh milestone (1-based id)
and recompute progress. -/
def addMilestone (now : Int) (g : Goal) (title description : String) :
    Goal × Milestone :=
  let m : Milestone :=
    { id := g.milestones.length + 1
      title := title
      description := description
      completed := false
      createdAt := now
      completedAt := none }
  (updateProgressOfGoal { g with milestones := g.milestones ++ [m] }, m)

/-- The loop body of `Goal.complete_milestone`: mark the first milestone with
the given id as completed; `none` when no milestone matches. -/
def markFirstMilestone (now : Int) (mid : Nat) :
    List Milestone → Option (List Milestone)
  | [] => none
  | m :: rest =>
    if m.id = mid then
      some ({ m with completed := true, completedAt := some now } :: rest)
    else
      (markFirstMilestone now mid rest).map (fun l => m :: l)

/-- Python `Goal.complete_milestone` (lines 62-70): returns the updated goal and the
boolean result.  Note the source recomputes progress but never touches
`status` or `completion_date`. -/
def completeMilestone (now : Int) (g : Goal) (mid : Nat) : Goal × Bool :=
  match markFirstMilestone now mid g.milestones with
  | some l => (updateProgressOfGoal { g with milestones := l }, true)
  | none => (g, false)

/-- Python `Goal.complete` (lines 94-98). -/
def completeGoal (now : Int) (g : Goal) : Goal :=
  { g with status := GoalStatus.completed
           completionDate := some now
           progress := 1 }

/-- Python `Goal.add_check_in` (lines 79-92): record the check-in with the progress
*before* the delta, set `progress = min(1.0, progress + delta)`, and call
`complete` when the result reaches 1.0.  There is no lower clamp. -/
def addCheckIn (now : Int) (g : Goal) (note mood : String) (delta : ℚ) : Goal :=
  let ci : CheckIn :=
    { timestamp := now
      note := note
      mood := mood
      progress := g.progress
      progressDelta := delta }
  let g1 : Goal :=
    { g with checkIns := g.checkIns ++ [ci]
             progress := min 1 (g.progress + delta) }
  if 1 ≤ g1.progress then completeGoal now g1 else g1

/-- An achievement dict as produced by `GoalsManager._award_achievement`
(lines 250-259). -/
structure Achievement where
  id : String
  title : String
  description : String
  awardedAt : Int
deriving DecidableEq

/-- One user slice of `GoalsManager` (lines 146-151): that user's goal list
and achievement list. -/
structure ManagerState where
  goals : List Goal
  achievements : List Achievement
deriving DecidableEq

/-- Python `GoalsManager._has_achievement` (lines 246-248). -/
def hasAchievement (s : ManagerState) (aid : String) : Bool :=
  s.achievements.any (fun a => a.id = aid)

/-- Python `GoalsManager._award_achievement` (lines 250-259). -/
def awardAchievement (now : Int) (s : ManagerState)
    (aid title description : String) : ManagerState :=
  { s with achievements :=
      (s.achievements ++
        [{ id := aid, title := title, description := description,
           awardedAt := now }]) }

/-- Python `timedelta.days` of a difference of `dt` seconds (floor division). -/
def timedeltaDays (dt : Int) : Int := Int.fdiv dt 86400

/-- The loop body of the speed-demon check in `_check_achievements`
(lines 239-244): for each completed goal, award `speed_demon` once if the goal
was completed within the day of its creation. -/
def speedDemonStep (now : Int) (s : ManagerState) (g : Goal) : ManagerState :=
  match g.completionDate with
  | some cd =>
    if timedeltaDays (cd - g.createdAt) = 0 ∧ ¬ hasAchievement s "speed_demon" then
      awardAchievement now s "speed_demon" "Скоростной дьявол"
        "Завершил цель за 24 часа!"
    else s
  | none => s

/-- Python `GoalsManager._check_achievements` (lines 224-244). -/
def checkAchievements (now : Int) (s : ManagerState) : ManagerState :=
  let completed := s.goals.filter (fun g => g.status = GoalStatus.completed)
  let s1 :=
    if completed.length = 1 ∧ ¬ hasAchievement s "first_goal" then
      awardAchievement now s "first_goal" "Первая цель"
        "Завершил свою первую цель!"
    else s
  let s2 :=
    if 10 ≤ completed.length ∧ ¬ hasAchievement s1 "goal_master" then
      awardAchievement now s1 "goal_master" "Мастер целей" "Завершил 10 целей!"
    else s1
  completed.foldl (speedDemonStep now) s2

/-- Python `GoalsManager.create_goal` (lines 153-158): append a fresh goal, then run
the achievement check.  This is the only caller of `_check_achievements` in
the source. -/
def createGoal (now : Int) (s : ManagerState) (userId : Int) (title : String) :
    ManagerState × Goal :=
  let g := mkGoal now userId title
  (checkAchievements now { s with goals := s.goals ++ [g] }, g)

/-- Replace the first goal with the given id (the goal object found by
`get_goal_by_id`, lines 168-173, mutated in place by the handler). -/
def updateFirstGoal (gid : String) (f : Goal → Goal) : List Goal → List Goal
  | [] => []
  | g :: rest =>
    if g.id = gid then f g :: rest else g :: updateFirstGoal gid f rest

/-- The state effect of the `/checkin` handler `check_in_goal`
(lines 353-393): `add_check_in` is applied to the goal found by id; the
achievements list is only read, never checked or extended. -/
def checkInGoal (now : Int) (s : ManagerState) (gid : String) (note : String)
    (delta : ℚ) : ManagerState :=
  { s with goals :=
      (updateFirstGoal gid (fun g => addCheckIn now g note "neutral" delta)
        s.goals) }

/-- Number of achievements with the given id. -/
def countAch (s : ManagerState) (aid : String) : Nat :=
  (s.achievements.filter (fun a => a.id = aid)).length

end GoalsSys

namespace StateM

/-- Python `str.lower()` restricted to the alphabets that occur in this
repository: ASCII letters and the Cyrillic range А-Я (plus Ё). -/
def charLower (c : Char) : Char :=
  if 'A' ≤ c ∧ c ≤ 'Z' then Char.ofNat (c.toNat + 32)
  else if 'А' ≤ c ∧ c ≤ 'Я' then Char.ofNat (c.toNat + 32)
  else if c = 'Ё' then 'ё'
  else c

/-- Python `text.lower()`. -/
def pyLower (s : String) : String := String.mk (s.data.map charLower)

/-- Python substring test `needle in hay`. -/
def containsStr (hay needle : String) : Bool :=
  decide (needle.data <:+: hay.data)

/-- Python `text[:n]` (slicing by code points). -/
def pyTrunc (s : String) (n : Nat) : String := String.mk (s.data.take n)

/-- Python `KEYWORD_GROUPS` from `state.py` (lines 202-210), in dict insertion
order. -/
def KEYWORD_GROUPS : List (String × List String) :=
  [("stress", ["стресс", "нерв", "тревог", "паник", "выгор"]),
   ("fatigue", ["устал", "сон", "sleep", "выспал", "засып"]),
   ("finance", ["деньг", "финан", "кредит", "долг", "инвест", "бюджет", "подписк"]),
   ("growth", ["развит", "карьер", "цель", "skill", "навык", "учусь", "учеб", "план"]),
   ("health", ["здоров", "спорт", "диета", "тело", "вес", "питани", "сон"]),
   ("relationships", ["отношен", "друз", "семь", "партнер", "любов", "конфликт"]),
   ("motivation", ["лень", "мотивац", "не хочу", "не могу", "апат"])]

/-- Python `POSITIVE_TOKENS` (line 212). -/
def POSITIVE_TOKENS : List String :=
  ["рад", "доволен", "счаст", "класс", "ура", "отлично", "кайф", "вдохнов"]

/-- Python `NEGATIVE_TOKENS` (line 213). -/
def NEGATIVE_TOKENS : List String :=
  ["плохо", "ужас", "груст", "злюсь", "злю", "бесит", "устал", "не хочу",
   "ненавиж", "страх"]

/-- Python `detect_tone` (lines 216-223): `(pos - neg) / max(pos + neg, 1)`, or 0
when no token of either lexicon occurs. -/
def detectTone (text : String) : ℚ :=
  let t := pyLower text
  let pos := (POSITIVE_TOKENS.filter (fun tok => containsStr t tok)).length
  let neg := (NEGATIVE_TOKENS.filter (fun tok => containsStr t tok)).length
  if pos = 0 ∧ neg = 0 then 0
  else ((pos : ℚ) - (neg : ℚ)) / ((max (pos + neg) 1 : ℕ) : ℚ)

/-- An observation dict as appended by `add_observation` (lines 529-531). -/
structure Obs where
  ts : Int
  message : String
  tone : ℚ
  tags : List String
deriving DecidableEq

/-- An entry of a per-user `important_events` log: either a flagged message
(`_mark_important`, line 263) or a scenario event record (`_activate`
line 442, `evaluate_scenarios` lines 470/480). -/
inductive Event where
  | msg (ts : Int) (message : String) (tags : List String)
  | ev (ts : Int) (event : String)
deriving DecidableEq

/-- Scenario activation state, `"ACTIVE"` / `"INACTIVE"` in the source. -/
inductive SState where
  | ACTIVE
  | INACTIVE
deriving DecidableEq

/-- One scenario record `{state, last_activation, data}` (the `data` dict is
never read by the functions verified here and is omitted). -/
structure ScenarioState where
  state : SState
  lastActivation : Option Int
deriving DecidableEq

/-- A persisted dialog entry `{role, content}` (`append_message`,
line 183). -/
structure DialogMsg where
  role : String
  content : String
deriving DecidableEq

/-- An in-memory conversation entry; `timestamp` is present for messages
appended by `append_message` and absent for the system seed. -/
structure ConvoMsg where
  role : String
  content : String
  timestamp : Option Int
deriving DecidableEq

/-- Python `_default_scenarios` (lines 78-84): the four scenarios, all INACTIVE. -/
def defaultScenarios : List (String × ScenarioState) :=
  [("LowMoodSupport", { state := SState.INACTIVE, lastActivation := none }),
   ("ProductivityPush", { state := SState.INACTIVE, lastActivation := none }),
   ("FinancialFocus", { state := SState.INACTIVE, lastActivation := none }),
   ("SocialBonding", { state := SState.INACTIVE, lastActivation := none })]

/-- The per-user profile record created by `init_user` (lines 129-150).
Fields that no verified operation reads or writes (`created_at`,
`updated_at`, `last_reply`, `notes`, `pending_code_action`) are omitted;
timestamps are seconds. -/
structure Profile where
  userId : Int
  messageCount : Nat
  lastMessage : Option String
  moodScore : ℚ
  progressScore : ℚ
  goals : List String
  habits : List String
  mistakes : List String
  patterns : List String
  customFilters : List String
  observations : List Obs
  importantEvents : List Event
  scenarios : List (String × ScenarioState)
  dialogHistory : List DialogMsg
deriving DecidableEq

/-- The fresh profile of `init_user` (lines 129-150). -/
def initProfile (userId : Int) : Profile :=
  { userId := userId
    messageCount := 0
    lastMessage := none
    moodScore := 0
    progressScore := 0
    goals := []
    habits := []
    mistakes := []
    patterns := []
    customFilters := []
    observations := []
    importantEvents := []
    scenarios := defaultScenarios
    dialogHistory := [] }

/-- The keyword-group loop of `_update_patterns` (lines 229-234): append each
triggered tag to `patterns` if not yet present. -/
def updateTriggeredTags (patterns : List String) (textLower : String) :
    List String :=
  KEYWORD_GROUPS.foldl
    (fun pats kv =>
      if kv.2.any (fun token => containsStr textLower token) then
        (if kv.1 ∈ pats then pats else pats ++ [kv.1])
      else pats)
    patterns

/-- Append each element not yet present (the dedup loops of
`_update_patterns`, lines 246-254). -/
def appendNew (l new : List String) : List String :=
  new.foldl (fun acc x => if x ∈ acc then acc else acc ++ [x]) l

/-- Python `_update_patterns` (lines 226-256): updates `patterns`, `goals`,
`habits`, `mistakes` and returns the newly detected goal/habit/mistake
strings (the truncated, stripped raw message). -/
def updatePatterns (p : Profile) (text : String) :
    Profile × List String × List String × List String :=
  let textLower := pyLower text
  let p1 := { p with patterns := updateTriggeredTags p.patterns textLower }
  let snippet := pyTrunc text.trim 120
  let newGoals :=
    if containsStr textLower "хочу" ∨ containsStr textLower "цель" then
      [snippet]
    else []
  let newHabits := if containsStr textLower "привыч" then [snippet] else []
  let newMistakes :=
    if containsStr textLower "ошиб" ∨ containsStr textLower "факап" then
      [snippet]
    else []
  ({ p1 with goals := appendNew p1.goals newGoals
             habits := appendNew p1.habits newHabits
             mistakes := appendNew p1.mistakes newMistakes },
   newGoals, newHabits, newMistakes)

/-- Python `important_tokens` of `_mark_important` (line 261). -/
def IMPORTANT_TOKENS : List String :=
  ["важно", "срочно", "кризис", "критич", "help", "помоги"]

/-- Python `MAX_EVENTS` (line 24). -/
def MAX_EVENTS : Nat := 50

/-- Python `MAX_OBSERVATIONS` (line 23). -/
def MAX_OBSERVATIONS : Nat := 200

/-- Python `MAX_DIALOG_HISTORY` (line 25) and `MAX_HISTORY_LENGTH` (line 22). -/
def MAX_DIALOG_HISTORY : Nat := 200

/-- Python `_mark_important` (lines 259-264): when the message carries an important
token or any tag, append it to `important_events` and trim to the last 50
entries.  When the condition fails nothing is trimmed. -/
def markImportant (now : Int) (p : Profile) (text : String)
    (tags : List String) : Profile :=
  if IMPORTANT_TOKENS.any (fun tok => containsStr (pyLower text) tok) ∨
      tags ≠ [] then
    { p with importantEvents :=
        (takeLast MAX_EVENTS
          (p.importantEvents ++ [Event.msg now (pyTrunc text 200) tags])) }
  else p

/-- Python `round(x, 3)`: round `x * 1000` to the nearest integer.  (Python
breaks ties on the binary-float representation; no property proved here
depends on tie-breaking.) -/
def round3 (x : ℚ) : ℚ := ((round (x * 1000) : ℤ) : ℚ) / 1000

/-- Python `_update_scores` (lines 267-276): exponentially-weighted mood update and
clamped progress update, both rounded to 3 decimals. -/
def updateScores (p : Profile) (toneScore : ℚ) (triggered : List String) :
    Profile :=
  let mood := round3 (p.moodScore * (8/10) + toneScore * (2/10))
  let delta : ℚ :=
    (5/100) * ((triggered.filter
      (fun t => t ∈ ["growth", "health", "finance", "motivation"])).length : ℚ)
    - (5/100) * ((triggered.filter
      (fun t => t ∈ ["stress", "fatigue"])).length : ℚ)
  let progress := round3 (max (-1) (min (15/10) (p.progressScore + delta)))
  { p with moodScore := mood, progressScore := progress }

/-- A plan object (`_ensure_plan`, lines 311-319 / `generate_plan`,
lines 343-351). -/
structure Plan where
  date : Int
  short : List String
  mid : List String
  long : List String
  completedShort : List String
  completedMid : List String
  completedLong : List String
deriving DecidableEq

/-- The forecast dict written by `forecast_user` (lines 768-774). -/
structure Forecast where
  moodForecast : List ℚ
  crisisLowMood : ℚ
  crisisBurnout : ℚ
  crisisFinancial : ℚ
  achieveGoalProb : ℚ
  needsPush : Bool
  themePrediction : List String
  ts : Int
deriving DecidableEq

/-- A metacognition entry (`evaluate_metacognition`, lines 715-720). -/
structure Metacog where
  ts : Int
  replyQualityScore : ℚ
  empathyScore : ℚ
  motivationScore : ℚ
deriving DecidableEq

/-- The tuning dict (`adjust_from_metacognition`, line 741). -/
structure Tuning where
  temperature : ℚ
  topP : ℚ
  lastAdjusted : Int
deriving DecidableEq

/-- The life map dict (`update_life_strategy`, lines 894-898). -/
structure LifeMap where
  directions : List String
  strengths : List String
  weaknesses : List String
deriving DecidableEq

/-- The mindset dict (`update_life_strategy`, lines 909-912). -/
structure Mindset where
  thinkingStyle : String
  focus : String
deriving DecidableEq

/-- The `LongTermRecord` of `_default_long_term` (lines 87-119), restricted
to the fields read or written by the operations verified here.  The
remaining defaulted fields (`last_summary_at`, `monthly_summaries`,
`last_seen_at`, `last_greet_at`, timestamps of strategy updates, histories)
are only written by functions outside every claim and are omitted. -/
structure LongTermRecord where
  userId : Int
  goalCounts : List (String × Nat)
  habitCounts : List (String × Nat)
  confirmedGoals : List String
  confirmedHabits : List String
  importantEvents : List Event
  monthlyThemeCounts : List (String × Nat)
  weeklyFinanceScore : ℚ
  plans : List Plan
  forecast : Option Forecast
  metacognition : List Metacog
  tuningState : Option Tuning
  lifeMap : Option LifeMap
  strategicRecommendations : List (String × String)
  strategicRisks : List String
  mindsetProfile : Option Mindset
  personalityScores : List (String × ℚ)
  emotionMatrix : List (String × ℚ)
  implicitGoals : List String
  avoidedGoals : List String
  predictedGoals : List String
  stalledGoals : List String
deriving DecidableEq

/-- Python `_default_long_term` (lines 87-119): empty counters and lists, finance
score 0. -/
def defaultLongTerm (userId : Int) : LongTermRecord :=
  { userId := userId
    goalCounts := []
    habitCounts := []
    confirmedGoals := []
    confirmedHabits := []
    importantEvents := []
    monthlyThemeCounts := []
    weeklyFinanceScore := 0
    plans := []
    forecast := none
    metacognition := []
    tuningState := none
    lifeMap := none
    strategicRecommendations := []
    strategicRisks := []
    mindsetProfile := none
    personalityScores :=
      [("discipline", 1/2), ("emotional_stability", 1/2),
       ("decisiveness", 1/2), ("creativity", 1/2), ("social_energy", 1/2),
       ("financial_maturity", 1/2)]
    emotionMatrix :=
      [("anger", 0), ("sadness", 0), ("calmness", 0), ("focus", 0),
       ("excitement", 0), ("fear", 0)]
    implicitGoals := []
    avoidedGoals := []
    predictedGoals := []
    stalledGoals := [] }

/-- Python `_bump_counter` (lines 280-282): increment and return the new count. -/
def bumpCounter (counter : List (String × Nat)) (key : String) :
    List (String × Nat) × Nat :=
  let n := dictGet counter key 0 + 1
  (dictSet counter key n, n)

/-- Loop body of `detect_confirmed_goals` (lines 287-291). -/
def confirmGoalStep (lt : LongTermRecord) (g : String) : LongTermRecord :=
  let bc := bumpCounter lt.goalCounts g
  let lt1 := { lt with goalCounts := bc.1 }
  if 3 ≤ bc.2 ∧ g ∉ lt1.confirmedGoals then
    { lt1 with confirmedGoals := lt1.confirmedGoals ++ [g] }
  else lt1

/-- Python `detect_confirmed_goals` (lines 285-292): bump each goal's counter and
promote it to `confirmed_goals` once the count reaches 3. -/
def detectConfirmedGoals (lt : LongTermRecord) (goals : List String) :
    LongTermRecord :=
  goals.foldl confirmGoalStep lt

/-- Loop body of `detect_habits` (lines 297-301). -/
def confirmHabitStep (lt : LongTermRecord) (h : String) : LongTermRecord :=
  let bc := bumpCounter lt.habitCounts h
  let lt1 := { lt with habitCounts := bc.1 }
  if 5 ≤ bc.2 ∧ h ∉ lt1.confirmedHabits then
    { lt1 with confirmedHabits := lt1.confirmedHabits ++ [h] }
  else lt1

/-- Python `detect_habits` (lines 295-302): same with threshold 5. -/
def detectHabits (lt : LongTermRecord) (habits : List String) :
    LongTermRecord :=
  habits.foldl confirmHabitStep lt

/-- Python `update_themes` (lines 392-395). -/
def updateThemes (lt : LongTermRecord) (tags : List String) :
    LongTermRecord :=
  { lt with monthlyThemeCounts :=
      (tags.foldl (fun c tag => (bumpCounter c tag).1)
        lt.monthlyThemeCounts) }

/-- The triggered-tag computation of `add_observation` (lines 523-525): the
already-collected pattern tag names that occur literally in the lowered
text, followed by the matching non-empty custom filters. -/
def triggeredOf (p1 : Profile) (text : String) : List String :=
  let lowerText := pyLower text
  let customHits :=
    p1.customFilters.filter
      (fun flt => flt ≠ "" ∧ containsStr lowerText flt)
  (p1.patterns.filter (fun pat => containsStr lowerText pat)) ++ customHits

/-- Python `add_observation` (lines 513-544), the per-message pipeline: bump
the message counter, classify tone, update patterns/goals/habits/mistakes,
compute the triggered tags, update the scores, flag important messages,
append the observation (trimmed to the last 200), and run the long-term
goal/habit confirmation and theme counting.  The remaining long-term
updaters it calls (`make_monthly_summary`, `update_emotion_matrix`,
`update_personality`, `update_goal_reasoner`, `update_life_strategy`) write
only long-term fields that no claim mentions and never touch the profile;
they are not modelled. -/
def addObservation (now : Int) (st : Profile × LongTermRecord)
    (text : String) : Profile × LongTermRecord :=
  let p0 := { st.1 with messageCount := st.1.messageCount + 1,
                        lastMessage := some text }
  let toneScore := detectTone text
  let up := updatePatterns p0 text
  let p1 := up.1
  let newGoals := up.2.1
  let newHabits := up.2.2.1
  let triggered := triggeredOf p1 text
  let p2 := updateScores p1 toneScore triggered
  let p3 := markImportant now p2 text triggered
  let p4 :=
    { p3 with observations :=
        (takeLast MAX_OBSERVATIONS
          (p3.observations ++ [{ ts := now, message := text,
                                 tone := toneScore, tags := triggered }])) }
  let lt1 := detectConfirmedGoals st.2 newGoals
  let lt2 := detectHabits lt1 newHabits
  let lt3 := updateThemes lt2 triggered
  (p4, lt3)

/-- Scenario lookup `scenarios[name]` (presence of the four names is
guaranteed by `_get_scenarios`, lines 424-435). -/
def getScen (scs : List (String × ScenarioState)) (name : String) :
    ScenarioState :=
  dictGet scs name { state := SState.INACTIVE, lastActivation := none }

/-- Python `_activate` (lines 438-446): set the scenario ACTIVE, stamp
`last_activation`, and append a `"<name>_activated"` event record to BOTH
per-user event logs, without trimming either. -/
def activate (now : Int) (name : String)
    (st : Profile × LongTermRecord) : Profile × LongTermRecord :=
  let p := st.1
  let lt := st.2
  ({ p with
      scenarios :=
        (dictSet p.scenarios name
          { state := SState.ACTIVE, lastActivation := some now }),
      importantEvents :=
        (p.importantEvents ++ [Event.ev now (name ++ "_activated")]) },
   { lt with importantEvents :=
      (lt.importantEvents ++ [Event.ev now (name ++ "_activated")]) })

/-- Python `_deactivate` (lines 449-454): flip ACTIVE to INACTIVE, keeping
`last_activation`; a no-op otherwise. -/
def deactivate (name : String) (st : Profile × LongTermRecord) :
    Profile × LongTermRecord :=
  let p := st.1
  if (getScen p.scenarios name).state = SState.ACTIVE then
    ({ p with scenarios :=
        (dictSet p.scenarios name
          { getScen p.scenarios name with state := SState.INACTIVE }) },
     st.2)
  else st

/-- Python `sum(1 for o in obs for tag in o.tags if tag == t)`. -/
def countTagMentions (obs : List Obs) (tag : String) : Nat :=
  ((obs.flatMap Obs.tags).filter (fun t => t = tag)).length

/-- Python `recent` of `evaluate_scenarios` (line 475): observations of the
last 7 days.  The source computes it once; since no scenario stage ever
writes `observations`, `mood_score` or `progress_score`, recomputing it (and
the scores) from the threaded state inside each stage below is equal. -/
def recentObs (now : Int) (p : Profile) : List Obs :=
  p.observations.filter (fun o => now - 604800 < o.ts)

/-- The LowMoodSupport block of `evaluate_scenarios` (lines 467-472):
activate (guarded by `state != ACTIVE`) and append a `mood_low_detected`
event, or deactivate. -/
def lowMoodStage (now : Int) (st : Profile × LongTermRecord) :
    Profile × LongTermRecord :=
  let p := st.1
  let last3Tones := (takeLast 3 p.observations).map Obs.tone
  if p.moodScore < -(2/5) ∨
      (last3Tones ≠ [] ∧ ∀ t ∈ last3Tones, t ≤ -(1/5)) then
    (if (getScen p.scenarios "LowMoodSupport").state ≠ SState.ACTIVE then
      let st1 := activate now "LowMoodSupport" st
      ({ st1.1 with importantEvents :=
          (st1.1.importantEvents ++ [Event.ev now "mood_low_detected"]) },
       st1.2)
    else st)
  else deactivate "LowMoodSupport" st

/-- The ProductivityPush block of `evaluate_scenarios` (lines 475-482). -/
def productivityStage (now : Int) (st : Profile × LongTermRecord) :
    Profile × LongTermRecord :=
  let p := st.1
  if 2 ≤ countTagMentions (recentObs now p) "growth" ∧
      p.progressScore < 3/10 then
    (if (getScen p.scenarios "ProductivityPush").state ≠ SState.ACTIVE then
      let st1 := activate now "ProductivityPush" st
      ({ st1.1 with importantEvents :=
          (st1.1.importantEvents ++ [Event.ev now "productivity_coach_day"]) },
       st1.2)
    else st)
  else deactivate "ProductivityPush" st

/-- The FinancialFocus block of `evaluate_scenarios` (lines 485-493):
guarded activation, then the weekly finance score is bumped (capped at 10)
whenever the condition holds. -/
def financialStage (now : Int) (st : Profile × LongTermRecord) :
    Profile × LongTermRecord :=
  let p := st.1
  if 3 ≤ countTagMentions (recentObs now p) "finance" then
    let st1 :=
      if (getScen p.scenarios "FinancialFocus").state ≠ SState.ACTIVE then
        activate now "FinancialFocus" st
      else st
    (st1.1,
     { st1.2 with weeklyFinanceScore :=
        (min 10 (st1.2.weeklyFinanceScore + 1/2)) })
  else deactivate "FinancialFocus" st

/-- The SocialBonding block of `evaluate_scenarios` (lines 496-500): NOTE —
unlike the other three scenarios, `_activate` is called WITHOUT the
`state != ACTIVE` guard (line 498). -/
def socialStage (now : Int) (st : Profile × LongTermRecord) :
    Profile × LongTermRecord :=
  let p := st.1
  if 2 ≤ countTagMentions (recentObs now p) "relationships" ∧
      p.moodScore > -(3/10) then
    activate now "SocialBonding" st
  else deactivate "SocialBonding" st

/-- Python `evaluate_scenarios` (lines 457-500): the four scenario blocks in
source order, threading the mutated per-user state. -/
def evaluateScenarios (now : Int) (st : Profile × LongTermRecord) :
    Profile × LongTermRecord :=
  socialStage now (financialStage now (productivityStage now
    (lowMoodStage now st)))

/-- Number of `"<name>_activated"` records in an event log. -/
def countActivations (evs : List Event) (name : String) : Nat :=
  (evs.filter (fun e =>
    match e with
    | Event.ev _ s => s = name ++ "_activated"
    | Event.msg _ _ _ => false)).length

/-- Python `AVRORA_MAIN_GOAL` from `config.py` (line 45; inner quote marks of the
original Russian text omitted). -/
def AVRORA_MAIN_GOAL : String :=
  "Стать самым умным человеком-партнёром для Алекса: непрерывно самообучаться, анализировать свою эффективность и автономно улучшать свой код для максимальной пользы."

/-- Python `AVRORA_PROFESSIONS` from `config.py` (line 44). -/
def AVRORA_PROFESSIONS : List String :=
  ["Программист", "Психолог", "Стратег развития"]

/-- The `content` of `SYSTEM_PROMPT` from `config.py` (line 59 ff.); the full
prompt is a long fixed Russian text whose exact content no claim depends on;
only its first line is reproduced. -/
def SYSTEM_PROMPT_content : String :=
  "Ты — Аврора, самообучающийся AI-партнер для Алекса."

/-- Rendering of a Python list of strings inside an f-string (Python quotes
each item; the quoting is omitted, no claim depends on it). -/
def reprStrList (l : List String) : String :=
  "[" ++ String.intercalate ", " l ++ "]"

/-- Rendering of a Python list of numbers inside an f-string. -/
def reprQList (l : List ℚ) : String :=
  "[" ++ String.intercalate ", " (l.map toString) ++ "]"

/-- Rendering of a string-to-number dict inside an f-string. -/
def reprQPairs (l : List (String × ℚ)) : String :=
  "\x7b" ++
    String.intercalate ", " (l.map (fun kv => kv.1 ++ ": " ++ toString kv.2))
    ++ "\x7d"

/-- Rendering of a string-to-string dict inside an f-string. -/
def reprStrPairs (l : List (String × String)) : String :=
  "\x7b" ++
    String.intercalate ", " (l.map (fun kv => kv.1 ++ ": " ++ kv.2)) ++ "\x7d"

/-- Rendering of the forecast dict (`{}` when absent, the default). -/
def reprForecast : Option Forecast → String
  | none => "\x7b\x7d"
  | some f =>
    "\x7bmood_forecast: " ++ reprQList f.moodForecast ++
      ", crisis_risk: " ++
      reprQPairs [("low_mood", f.crisisLowMood), ("burnout", f.crisisBurnout),
                  ("financial", f.crisisFinancial)] ++
      ", goal_prediction: \x7bachieve_goal_prob: " ++ toString f.achieveGoalProb ++
      ", needs_push: " ++ (if f.needsPush then "True" else "False") ++
      "\x7d, theme_prediction: " ++ reprStrList f.themePrediction ++
      ", ts: " ++ toString f.ts ++ "\x7d"

/-- Rendering of a metacognition entry. -/
def reprMetacog (m : Metacog) : String :=
  "\x7bts: " ++ toString m.ts ++ ", reply_quality_score: " ++
    toString m.replyQualityScore ++ ", empathy_score: " ++
    toString m.empathyScore ++ ", motivation_score: " ++
    toString m.motivationScore ++ "\x7d"

/-- Rendering of the tuning dict (`{}` when absent, the default). -/
def reprTuning : Option Tuning → String
  | none => "\x7b\x7d"
  | some t =>
    "\x7btemperature: " ++ toString t.temperature ++ ", topP: " ++
      toString t.topP ++ ", last_adjusted: " ++ toString t.lastAdjusted ++ "\x7d"

/-- Rendering of the life-map dict (`{}` when absent, the default). -/
def reprLifeMap : Option LifeMap → String
  | none => "\x7b\x7d"
  | some m =>
    "\x7bdirections: " ++ reprStrList m.directions ++ ", strengths: " ++
      reprStrList m.strengths ++ ", weaknesses: " ++
      reprStrList m.weaknesses ++ "\x7d"

/-- Rendering of the mindset dict (`{}` when absent, the default). -/
def reprMindset : Option Mindset → String
  | none => "\x7b\x7d"
  | some m =>
    "\x7bthinking_style: " ++ m.thinkingStyle ++ ", focus: " ++ m.focus ++ "\x7d"

/-- Python `"\n".join(lines)`. -/
def joinLines : List String → String
  | [] => ""
  | [x] => x
  | x :: xs => x ++ "\n" ++ joinLines xs

/-- Python `get_active_scenarios` (lines 641-643): names of ACTIVE scenarios in
dict order. -/
def getActiveScenarios (scs : List (String × ScenarioState)) : List String :=
  (scs.filter (fun kv => kv.2.state = SState.ACTIVE)).map (fun kv => kv.1)

/-- The empty plan dict built by `_ensure_plan` (lines 311-319). -/
def emptyPlan (now : Int) : Plan :=
  { date := now, short := [], mid := [], long := [],
    completedShort := [], completedMid := [], completedLong := [] }

/-- The plan value returned by `get_plan` (lines 358-362): the latest plan,
or the fresh empty plan that `_ensure_plan` creates (and appends — a
long-term mutation that `build_super_context` never reads back). -/
def getPlanValue (now : Int) (lt : LongTermRecord) : Plan :=
  (lt.plans.getLast?).getD (emptyPlan now)

/-- Python `build_super_context` (lines 967-1008): the sixteen summary lines joined
by newlines.  Interpolated Python values are rendered by the total `repr*`
functions above. -/
def buildSuperContext (now : Int) (p : Profile) (lt : LongTermRecord) :
    String :=
  let active := getActiveScenarios p.scenarios
  let plan := getPlanValue now lt
  let metacogLast := lt.metacognition.getLast?
  let topEmotions :=
    if lt.emotionMatrix = [] then []
    else
      (lt.emotionMatrix.mergeSort
        (fun a b => decide (b.2 ≤ a.2))).take 3
  joinLines
    ["Главная цель: " ++ AVRORA_MAIN_GOAL,
     "Профессии Авроры: " ++ reprStrList AVRORA_PROFESSIONS,
     "Сценарии: " ++
       (if active ≠ [] then String.intercalate ", " active else "нет"),
     "План: short=" ++ reprStrList plan.short ++ " mid=" ++
       reprStrList plan.mid ++ " long=" ++ reprStrList plan.long,
     "Прогноз: " ++ reprForecast lt.forecast,
     (match metacogLast with
      | some m => "Самооценка: " ++ reprMetacog m
      | none => "Самооценка: нет"),
     (match lt.tuningState with
      | some t => "Тюнинг: " ++ reprTuning (some t)
      | none => "Тюнинг: нет"),
     "Долгосрочные цели: " ++ reprStrList lt.confirmedGoals,
     "Долгосрочные привычки: " ++ reprStrList lt.confirmedHabits,
     "Стратегическая карта: " ++ reprLifeMap lt.lifeMap,
     "Стратегические рекомендации: " ++
       reprStrPairs lt.strategicRecommendations,
     "Стратегические риски: " ++ reprStrList lt.strategicRisks,
     "Mindset: " ++ reprMindset lt.mindsetProfile,
     "Личность: " ++ reprQPairs lt.personalityScores,
     "Эмоции (топ-3): " ++ reprQPairs topEmotions,
     "Целевой анализ: \x7bimplicit: " ++ reprStrList lt.implicitGoals ++
       ", avoided: " ++ reprStrList lt.avoidedGoals ++ ", predicted: " ++
       reprStrList lt.predictedGoals ++ ", stalled: " ++
       reprStrList lt.stalledGoals ++ "\x7d"]

/-- The whole per-user state: in-memory conversation deque (maxlen 200),
profile and long-term record. -/
structure SysState where
  convo : List ConvoMsg
  profile : Profile
  longTerm : LongTermRecord
deriving DecidableEq

/-- The system seed message placed in a fresh conversation history
(`init_user`, line 126). -/
def systemMessage : ConvoMsg :=
  { role := "system", content := SYSTEM_PROMPT_content, timestamp := none }

/-- Python `append_message` (lines 175-185): append to the conversation deque
(whose `maxlen=200` evicts from the front) and to the persisted
`dialog_history`, trimmed to its last 200 entries. -/
def appendMessage (now : Int) (s : SysState) (role content : String) :
    SysState :=
  { s with
      convo :=
        (takeLast MAX_DIALOG_HISTORY
          (s.convo ++ [{ role := role, content := content,
                         timestamp := some now }])),
      profile :=
        { s.profile with dialogHistory :=
            (takeLast MAX_DIALOG_HISTORY
              (s.profile.dialogHistory ++
                [{ role := role, content := content }])) } }

/-- Python `soft_reboot` (lines 1012-1020): reset the conversation history to the
system seed, reset `behavior_scenarios` to the defaults, empty
`observations` and `important_events`, and touch nothing else. -/
def softReboot (s : SysState) : SysState :=
  { s with
      convo := [systemMessage],
      profile :=
        { s.profile with scenarios := defaultScenarios,
                         observations := [], importantEvents := [] } }

end StateM

namespace Handlers

open StateM

/-- The stages of `process_message` (`handlers.py`, lines 556-589) at which
an unexpected internal exception can be injected. -/
inductive Stage where
  | addObs
  | runAutonomy
  | evalScenarios
  | appendMsg
  | geminiCall
deriving DecidableEq

/-- Python `add_observation` lifted to the whole per-user state. -/
def stepAddObs (now : Int) (s : SysState) (text : String) : SysState :=
  let r := addObservation now (s.profile, s.longTerm) text
  { s with profile := r.1, longTerm := r.2 }

/-- Python `evaluate_scenarios` lifted to the whole per-user state. -/
def stepEvalScenarios (now : Int) (s : SysState) : SysState :=
  let r := evaluateScenarios now (s.profile, s.longTerm)
  { s with profile := r.1, longTerm := r.2 }

/-- The state reached by `process_message` just before the guarded Gemini
call: `add_observation`, `run_autonomy` (whose writes are to long-term
fields outside every claim and are not modelled), `evaluate_scenarios`,
`append_message(user)`. -/
def preLLM (now : Int) (s : SysState) (text : String) : SysState :=
  appendMessage now (stepEvalScenarios now (stepAddObs now s text))
    "user" text

/-- Python `process_message` (`handlers.py`, lines 556-589), with an injectable
fault.  The four state-update calls run OUTSIDE the `try` block, so a fault
there propagates as `Except.error` to the caller and no reply is produced;
only the Gemini-call section is guarded by `try/except`, which logs and
replies with a short error text.  On success the reply is appended to the
history and sent (metacognition bookkeeping inside the `try`, which writes
only long-term fields outside every claim, is not modelled). -/
def processMessage (fault : Option Stage) (now : Int) (s : SysState)
    (text answer : String) : Except String (SysState × List String) := do
  let s ← if fault = some Stage.addObs then
      Except.error "add_observation failed"
    else pure (stepAddObs now s text)
  let s ← if fault = some Stage.runAutonomy then
      Except.error "run_autonomy failed"
    else pure s
  let s ← if fault = some Stage.evalScenarios then
      Except.error "evaluate_scenarios failed"
    else pure (stepEvalScenarios now s)
  let s ← if fault = some Stage.appendMsg then
      Except.error "append_message failed"
    else pure (appendMessage now s "user" text)
  if fault = some Stage.geminiCall then
    pure (s, ["Не удалось ответить: internal"])
  else
    pure (appendMessage now s "model" answer, [answer])

end Handlers

open GoalsSys StateM Handlers

theorem addCheckIn_progress (now : Int) (g : Goal) (note mood : String)
    (d : ℚ) :
    (addCheckIn now g note mood d).progress = min 1 (g.progress + d) := by
  by_cases h : (1 : ℚ) ≤ min 1 (g.progress + d)
  · have hmin : min 1 (g.progress + d) = 1 := le_antisymm (min_le_left _ _) h
    simp [addCheckIn, completeGoal, h, hmin]
  · simp [addCheckIn, h]

/-- C9: `add_check_in` sets `progress` to `min(1.0, progress + progress_delta)`
with no lower clamp, so a negative delta can push progress strictly below 0,
outside the `[0, 1]` range the spec gives for goal progress: starting from a
fresh goal (progress 0.0), a check-in with delta `-0.5` yields progress
`-0.5 < 0`. -/
theorem c9_addCheckIn_no_lower_clamp :
    (∀ (now : Int) (g : Goal) (note mood : String) (d : ℚ),
      (addCheckIn now g note mood d).progress = min 1 (g.progress + d)) ∧
    (addCheckIn 0 (mkGoal 0 1 "t") "" "neutral" (-(1/2))).progress = -(1/2) ∧
    (addCheckIn 0 (mkGoal 0 1 "t") "" "neutral" (-(1/2))).progress < 0 := by
  have h : (addCheckIn 0 (mkGoal 0 1 "t") "" "neutral" (-(1/2))).progress
      = -(1/2) := by
    rw [addCheckIn_progress]
    show min 1 ((0 : ℚ) + -(1/2)) = -(1/2)
    rw [min_eq_right (by norm_num)]
    norm_num
  exact ⟨addCheckIn_progress, h, by rw [h]; norm_num⟩

/-- C10: `soft_reboot` resets `behavior_scenarios` to the all-INACTIVE
defaults, empties `observations` and `important_events`, and resets the
in-memory conversation history to its fresh state (the single system-prompt
seed, exactly as `init_user` creates it), while leaving every other profile
field and the entire long-term record unchanged. -/
theorem c10_softReboot_frame :
    ∀ s : SysState,
      (softReboot s).convo = [systemMessage] ∧
      (softReboot s).profile.scenarios = defaultScenarios ∧
      (softReboot s).profile.observations = [] ∧
      (softReboot s).profile.importantEvents = [] ∧
      (softReboot s).longTerm = s.longTerm ∧
      (softReboot s).profile.userId = s.profile.userId ∧
      (softReboot s).profile.messageCount = s.profile.messageCount ∧
      (softReboot s).profile.lastMessage = s.profile.lastMessage ∧
      (softReboot s).profile.moodScore = s.profile.moodScore ∧
      (softReboot s).profile.progressScore = s.profile.progressScore ∧
      (softReboot s).profile.goals = s.profile.goals ∧
      (softReboot s).profile.habits = s.profile.habits ∧
      (softReboot s).profile.mistakes = s.profile.mistakes ∧
      (softReboot s).profile.patterns = s.profile.patterns ∧
      (softReboot s).profile.customFilters = s.profile.customFilters ∧
      (softReboot s).profile.dialogHistory = s.profile.dialogHistory :=
  fun _ =>
    ⟨rfl, rfl, rfl, rfl, rfl, rfl, rfl, rfl, rfl, rfl, rfl, rfl, rfl, rfl,
     rfl, rfl⟩

/-- C6, counterexample: a fault injected in `add_observation` propagates out
of `process_message` as an error — it is not caught at any pipeline boundary
and the user receives no reply, contrary to the claim. -/
theorem c6_counterexample :
    processMessage (some Stage.addObs) 0
      { convo := [systemMessage], profile := initProfile 1,
        longTerm := defaultLongTerm 1 } "привет" "ok"
      = Except.error "add_observation failed" := rfl

/-- C6, amended: faults in the record-message pipeline (`add_observation`,
`run_autonomy`, `evaluate_scenarios`, `append_message`) are NOT caught —
they propagate to the caller of `process_message` and no reply is sent;
only a fault inside the Gemini-call section is caught, logged, and answered
with a short error message, and in the fault-free run the user receives the
LLM reply. -/
theorem c6_amended :
    ∀ (now : Int) (s : SysState) (text answer : String),
      processMessage (some Stage.addObs) now s text answer
        = Except.error "add_observation failed" ∧
      processMessage (some Stage.runAutonomy) now s text answer
        = Except.error "run_autonomy failed" ∧
      processMessage (some Stage.evalScenarios) now s text answer
        = Except.error "evaluate_scenarios failed" ∧
      processMessage (some Stage.appendMsg) now s text answer
        = Except.error "append_message failed" ∧
      processMessage (some Stage.geminiCall) now s text answer
        = Except.ok (preLLM now s text, ["Не удалось ответить: internal"]) ∧
      processMessage none now s text answer
        = Except.ok (appendMessage now (preLLM now s text) "model" answer,
            [answer]) :=
  fun _ _ _ _ => ⟨rfl, rfl, rfl, rfl, rfl, rfl⟩

theorem updateProgressOfGoal_status (g : Goal) :
    (updateProgressOfGoal g).status = g.status := by
  unfold updateProgressOfGoal; split <;> rfl

theorem updateProgressOfGoal_completionDate (g : Goal) :
    (updateProgressOfGoal g).completionDate = g.completionDate := by
  unfold updateProgressOfGoal; split <;> rfl

theorem updateProgressOfGoal_progress_le_one (g : Goal)
    (h : g.progress ≤ 1) : (updateProgressOfGoal g).progress ≤ 1 := by
  unfold updateProgressOfGoal
  split
  · exact h
  next hne =>
    simp only
    have hlen : 0 < g.milestones.length :=
      List.length_pos.mpr hne
    rw [div_le_one (by exact_mod_cast hlen)]
    exact_mod_cast List.length_filter_le _ _

/-- C1, counterexample: on the milestone path the goal's status is NOT
forced to COMPLETED when progress reaches 1.0 — completing the only
milestone of a goal yields progress 1.0 with status still ACTIVE and no
completion timestamp (`complete_milestone` never calls `complete`). -/
theorem c1_counterexample :
    ((completeMilestone 5 (addMilestone 0 (mkGoal 0 1 "t") "m" "").1 1).1.progress
        = 1) ∧
    ((completeMilestone 5 (addMilestone 0 (mkGoal 0 1 "t") "m" "").1 1).1.status
        = GoalStatus.active) ∧
    ((completeMilestone 5 (addMilestone 0 (mkGoal 0 1 "t") "m" "").1 1).1.completionDate
        = none) := by
  refine ⟨?_, ?_, ?_⟩ <;>
    simp [completeMilestone, addMilestone, mkGoal, markFirstMilestone,
      updateProgressOfGoal]

/-- C1, amended: a goal's progress never exceeds 1.0 (each of the three
mutating operations keeps `progress ≤ 1`); on the CHECK-IN path the goal
transitions to COMPLETED exactly when progress first reaches 1.0 — not
before, not skippable — and the completion timestamp is set at that moment;
on the MILESTONE path `complete_milestone` only recomputes progress as
completed/total and never changes the status or the completion timestamp,
even when progress reaches 1.0. -/
theorem c1_amended :
    (∀ (now : Int) (g : Goal) (title desc : String), g.progress ≤ 1 →
        (addMilestone now g title desc).1.progress ≤ 1) ∧
    (∀ (now : Int) (g : Goal) (mid : Nat), g.progress ≤ 1 →
        (completeMilestone now g mid).1.progress ≤ 1) ∧
    (∀ (now : Int) (g : Goal) (note mood : String) (d : ℚ),
        (addCheckIn now g note mood d).progress ≤ 1) ∧
    (∀ (now : Int) (g : Goal) (note mood : String) (d : ℚ),
        g.status = GoalStatus.active →
        ((addCheckIn now g note mood d).status = GoalStatus.completed ↔
          1 ≤ g.progress + d)) ∧
    (∀ (now : Int) (g : Goal) (note mood : String) (d : ℚ),
        g.status = GoalStatus.active →
        (addCheckIn now g note mood d).status = GoalStatus.completed →
        (addCheckIn now g note mood d).completionDate = some now ∧
          (addCheckIn now g note mood d).progress = 1) ∧
    (∀ (now : Int) (g : Goal) (mid : Nat),
        (completeMilestone now g mid).1.status = g.status ∧
        (completeMilestone now g mid).1.completionDate = g.completionDate) := by
  refine ⟨?_, ?_, ?_, ?_, ?_, ?_⟩
  · intro now g title desc h
    exact updateProgressOfGoal_progress_le_one _ h
  · intro now g mid h
    unfold completeMilestone
    cases hm : markFirstMilestone now mid g.milestones with
    | none => simp only [hm]; exact h
    | some l =>
      simp only [hm]
      exact updateProgressOfGoal_progress_le_one { g with milestones := l } h
  · intro now g note mood d
    rw [addCheckIn_progress]
    exact min_le_left _ _
  · intro now g note mood d hst
    by_cases hc : (1 : ℚ) ≤ min 1 (g.progress + d)
    · have hd : (1 : ℚ) ≤ g.progress + d := (le_min_iff.mp hc).2
      simp [addCheckIn, hc, completeGoal, hd]
    · have hd : ¬ (1 : ℚ) ≤ g.progress + d := by
        intro hx
        exact hc (le_min_iff.mpr ⟨le_refl 1, hx⟩)
      simp [addCheckIn, hc, hst, hd]
  · intro now g note mood d hst hcomp
    by_cases hc : (1 : ℚ) ≤ min 1 (g.progress + d)
    · constructor <;> simp [addCheckIn, hc, completeGoal]
    · exfalso
      rw [show (addCheckIn now g note mood d).status = g.status by
        simp [addCheckIn, hc]] at hcomp
      rw [hst] at hcomp
      exact GoalStatus.noConfusion hcomp
  · intro now g mid
    unfold completeMilestone
    cases hm : markFirstMilestone now mid g.milestones with
    | none => simp only [hm]; exact ⟨trivial, trivial⟩
    | some l =>
      simp only [hm]
      exact ⟨updateProgressOfGoal_status _, updateProgressOfGoal_completionDate _⟩

/-- C1, witness: the amended theorem applied at concrete goals. -/
theorem c1_amended_witness :
    ((addMilestone 0 (mkGoal 0 1 "t") "m" "").1.progress ≤ 1) ∧
    ((completeMilestone 0 (mkGoal 0 1 "t") 1).1.progress ≤ 1) ∧
    ((addCheckIn 0 (mkGoal 0 1 "t") "" "neutral" (1/2)).progress ≤ 1) ∧
    ((addCheckIn 0 (mkGoal 0 1 "t") "" "neutral" 1).status
        = GoalStatus.completed ↔ 1 ≤ (mkGoal 0 1 "t").progress + 1) ∧
    ((addCheckIn 0 (mkGoal 0 1 "t") "" "neutral" 1).completionDate = some 0 ∧
      (addCheckIn 0 (mkGoal 0 1 "t") "" "neutral" 1).progress = 1) ∧
    ((completeMilestone 0 (mkGoal 0 1 "t") 1).1.status = (mkGoal 0 1 "t").status ∧
      (completeMilestone 0 (mkGoal 0 1 "t") 1).1.completionDate
        = (mkGoal 0 1 "t").completionDate) := by
  refine ⟨c1_amended.1 0 _ "m" "" ?_, c1_amended.2.1 0 _ 1 ?_,
    c1_amended.2.2.1 0 _ "" "neutral" (1/2),
    c1_amended.2.2.2.1 0 _ "" "neutral" 1 rfl,
    c1_amended.2.2.2.2.1 0 _ "" "neutral" 1 rfl ?_,
    c1_amended.2.2.2.2.2 0 _ 1⟩
  · show (0 : ℚ) ≤ 1; norm_num
  · show (0 : ℚ) ≤ 1; norm_num
  · rw [(c1_amended.2.2.2.1 0 (mkGoal 0 1 "t") "" "neutral" 1 rfl)]
    show (1 : ℚ) ≤ 0 + 1; norm_num

theorem countAch_award (now : Int) (s : ManagerState)
    (aid title desc aidQ : String) :
    countAch (awardAchievement now s aid title desc) aidQ =
      countAch s aidQ + (if aid = aidQ then 1 else 0) := by
  by_cases h : aid = aidQ <;>
    simp [countAch, awardAchievement, List.filter_append, h]

theorem countAch_of_not_has (s : ManagerState) (aid : String)
    (h : ¬ hasAchievement s aid) : countAch s aid = 0 := by
  simp only [hasAchievement, List.any_eq_true, not_exists] at h
  simp only [countAch, List.length_eq_zero, List.filter_eq_nil_iff]
  intro a ha
  simpa using fun hid => (h a) ⟨ha, by simp [hid]⟩

theorem guardedAward_countAch (now : Int) (s : ManagerState) (C : Prop)
    [Decidable C] (aid t d aidQ : String) :
    countAch
        (if C ∧ ¬ hasAchievement s aid then awardAchievement now s aid t d
         else s) aidQ
      ≤ max (countAch s aidQ) 1 := by
  split
  next h =>
    rw [countAch_award]
    by_cases haid : aid = aidQ
    · subst haid
      rw [countAch_of_not_has s aid h.2]
      simp
    · simp [haid]
  next => exact le_max_left _ _

theorem speedDemonStep_countAch (now : Int) (s : ManagerState) (g : Goal)
    (aid : String) :
    countAch (speedDemonStep now s g) aid ≤ max (countAch s aid) 1 := by
  unfold speedDemonStep
  cases g.completionDate with
  | none => exact le_max_left _ _
  | some cd =>
    simp only
    exact guardedAward_countAch now s (timedeltaDays (cd - g.createdAt) = 0)
      "speed_demon" "Скоростной дьявол" "Завершил цель за 24 часа!" aid

theorem le_max_one_step {a b c : ℕ} (h : a ≤ max b 1) (h2 : b ≤ max c 1) :
    a ≤ max c 1 := by
  refine le_trans h (le_trans (max_le_max h2 (le_refl 1)) ?_)
  rw [max_assoc, max_self]

theorem foldSpeed_countAch (now : Int) (l : List Goal) (s : ManagerState)
    (aid : String) :
    countAch (l.foldl (speedDemonStep now) s) aid ≤ max (countAch s aid) 1 := by
  induction l generalizing s with
  | nil => exact le_max_left _ _
  | cons hd tl ih =>
    simp only [List.foldl_cons]
    exact le_max_one_step (ih (speedDemonStep now s hd))
      (speedDemonStep_countAch now s hd aid)

theorem checkAchievements_countAch (now : Int) (s : ManagerState)
    (aid : String) :
    countAch (checkAchievements now s) aid ≤ max (countAch s aid) 1 := by
  unfold checkAchievements
  exact le_max_one_step
    (le_max_one_step (foldSpeed_countAch _ _ _ _)
      (guardedAward_countAch _ _ _ _ _ _ _))
    (guardedAward_countAch _ _ _ _ _ _ _)

/-- C7, counterexample: completing a goal does NOT trigger an achievement
check — `_check_achievements` is called only from `create_goal`.  A user
creates one goal and completes it via a check-in (a completion event): the
goal is COMPLETED, yet the achievements list is still empty, although the
claim requires the first-completed-goal achievement to be awarded after
every completion event. -/
theorem c7_counterexample :
    ((checkInGoal 100 (createGoal 0 ⟨[], []⟩ 1 "t").1 (mkGoal 0 1 "t").id
        "" 1).goals.map Goal.status = [GoalStatus.completed]) ∧
    ((checkInGoal 100 (createGoal 0 ⟨[], []⟩ 1 "t").1 (mkGoal 0 1 "t").id
        "" 1).achievements = []) := by
  have hmin : (1 : ℚ) ≤ min 1 ((mkGoal 0 1 "t").progress + 1) := by
    show (1 : ℚ) ≤ min 1 (0 + 1)
    norm_num
  constructor
  · simp [checkInGoal, createGoal, checkAchievements, updateFirstGoal,
      addCheckIn, hmin, completeGoal]
  · simp [checkInGoal, createGoal, checkAchievements, mkGoal]

/-- C7, amended: achievement checks run only after `create_goal` (its result
is by definition the achievement check applied to the state with the new
goal appended); goal-completion events (`/checkin` driving `add_check_in`)
never run the check and leave the achievements list unchanged; and each
achievement id is awarded at most once — one run of `_check_achievements`
never pushes the number of records with a given id above `max previous 1`. -/
theorem c7_amended :
    (∀ (now : Int) (s : ManagerState) (aid : String),
        countAch (checkAchievements now s) aid ≤ max (countAch s aid) 1) ∧
    (∀ (now : Int) (s : ManagerState) (gid note : String) (d : ℚ),
        (checkInGoal now s gid note d).achievements = s.achievements) ∧
    (∀ (now : Int) (s : ManagerState) (uid : Int) (title : String),
        (createGoal now s uid title).1
          = checkAchievements now
              { s with goals := s.goals ++ [mkGoal now uid title] }) :=
  ⟨checkAchievements_countAch, fun _ _ _ _ _ => rfl, fun _ _ _ _ => rfl⟩

theorem confirmGoal_iter_closed (uid : Int) (g : String) (n : Nat) :
    ((fun lt => detectConfirmedGoals lt [g])^[n + 1] (defaultLongTerm uid))
      = { defaultLongTerm uid with
            goalCounts := [(g, n + 1)],
            confirmedGoals := if 3 ≤ n + 1 then [g] else [] } := by
  induction n with
  | zero =>
    rw [Function.iterate_one]
    simp [detectConfirmedGoals, confirmGoalStep, bumpCounter, dictGet,
      dictSet, defaultLongTerm]
  | succ k ih =>
    rw [Function.iterate_succ_apply', ih]
    simp only [detectConfirmedGoals, List.foldl_cons, List.foldl_nil,
      confirmGoalStep, bumpCounter, dictGet, dictSet, List.find?_cons_of_pos,
      decide_True]
    by_cases h3 : 3 ≤ k + 1
    · have h4 : 3 ≤ k + 1 + 1 := by omega
      simp [h3, h4]
    · by_cases h4 : 3 ≤ k + 1 + 1
      · simp [h3, h4]
      · simp [h3, h4]

theorem confirmHabit_iter_closed (uid : Int) (h : String) (n : Nat) :
    ((fun lt => detectHabits lt [h])^[n + 1] (defaultLongTerm uid))
      = { defaultLongTerm uid with
            habitCounts := [(h, n + 1)],
            confirmedHabits := if 5 ≤ n + 1 then [h] else [] } := by
  induction n with
  | zero =>
    rw [Function.iterate_one]
    simp [detectHabits, confirmHabitStep, bumpCounter, dictGet,
      dictSet, defaultLongTerm]
  | succ k ih =>
    rw [Function.iterate_succ_apply', ih]
    simp only [detectHabits, List.foldl_cons, List.foldl_nil,
      confirmHabitStep, bumpCounter, dictGet, dictSet, List.find?_cons_of_pos,
      decide_True]
    by_cases h5 : 5 ≤ k + 1
    · have h6 : 5 ≤ k + 1 + 1 := by omega
      simp [h5, h6]
    · by_cases h6 : 5 ≤ k + 1 + 1
      · simp [h5, h6]
      · simp [h5, h6]

theorem confirmGoalStep_prefix_mono (lt : LongTermRecord) (g : String) :
    lt.confirmedGoals <+: (confirmGoalStep lt g).confirmedGoals := by
  unfold confirmGoalStep
  simp only
  split
  · exact List.prefix_append _ _
  · exact List.prefix_refl _

theorem detectConfirmedGoals_prefix_mono (lt : LongTermRecord)
    (gs : List String) :
    lt.confirmedGoals <+: (detectConfirmedGoals lt gs).confirmedGoals := by
  induction gs generalizing lt with
  | nil => exact List.prefix_refl _
  | cons hd tl ih =>
    exact List.IsPrefix.trans (confirmGoalStep_prefix_mono lt hd)
      (ih (confirmGoalStep lt hd))

theorem confirmHabitStep_prefix_mono (lt : LongTermRecord) (h : String) :
    lt.confirmedHabits <+: (confirmHabitStep lt h).confirmedHabits := by
  unfold confirmHabitStep
  simp only
  split
  · exact List.prefix_append _ _
  · exact List.prefix_refl _

theorem detectHabits_prefix_mono (lt : LongTermRecord) (hs : List String) :
    lt.confirmedHabits <+: (detectHabits lt hs).confirmedHabits := by
  induction hs generalizing lt with
  | nil => exact List.prefix_refl _
  | cons hd tl ih =>
    exact List.IsPrefix.trans (confirmHabitStep_prefix_mono lt hd)
      (ih (confirmHabitStep lt hd))

theorem confirmGoalStep_nodup (lt : LongTermRecord) (g : String)
    (h : lt.confirmedGoals.Nodup) :
    (confirmGoalStep lt g).confirmedGoals.Nodup := by
  unfold confirmGoalStep
  simp only
  split
  next hcond => simp [List.nodup_append, h, hcond.2]
  next => exact h

theorem detectConfirmedGoals_nodup (lt : LongTermRecord) (gs : List String)
    (h : lt.confirmedGoals.Nodup) :
    (detectConfirmedGoals lt gs).confirmedGoals.Nodup := by
  induction gs generalizing lt with
  | nil => exact h
  | cons hd tl ih => exact ih _ (confirmGoalStep_nodup lt hd h)

theorem confirmHabitStep_nodup (lt : LongTermRecord) (g : String)
    (h : lt.confirmedHabits.Nodup) :
    (confirmHabitStep lt g).confirmedHabits.Nodup := by
  unfold confirmHabitStep
  simp only
  split
  next hcond => simp [List.nodup_append, h, hcond.2]
  next => exact h

theorem detectHabits_nodup (lt : LongTermRecord) (hs : List String)
    (h : lt.confirmedHabits.Nodup) :
    (detectHabits lt hs).confirmedHabits.Nodup := by
  induction hs generalizing lt with
  | nil => exact h
  | cons hd tl ih => exact ih _ (confirmHabitStep_nodup lt hd h)

/-- C5: starting from a fresh long-term record, a goal string enters
`confirmed_goals` exactly when its occurrence count reaches 3 (the confirmed
list is empty through the 2nd occurrence, becomes `[g]` at the 3rd, and
stays `[g]` from then on — so nothing new is appended at the 4th); a habit
string enters `confirmed_habits` exactly at the 5th occurrence; both
confirmed lists are monotonic (every update extends them: the old list is a
prefix of the new one) and deduplicated (duplicate-freeness is preserved by
every update, the guard skipping already-confirmed strings). -/
theorem c5_confirmation_threshold_exact :
    (∀ (uid : Int) (g : String) (n : Nat),
        ((fun lt => detectConfirmedGoals lt [g])^[n]
            (defaultLongTerm uid)).confirmedGoals
          = if 3 ≤ n then [g] else []) ∧
    (∀ (uid : Int) (h : String) (n : Nat),
        ((fun lt => detectHabits lt [h])^[n]
            (defaultLongTerm uid)).confirmedHabits
          = if 5 ≤ n then [h] else []) ∧
    (∀ (lt : LongTermRecord) (gs : List String),
        lt.confirmedGoals <+: (detectConfirmedGoals lt gs).confirmedGoals) ∧
    (∀ (lt : LongTermRecord) (hs : List String),
        lt.confirmedHabits <+: (detectHabits lt hs).confirmedHabits) ∧
    (∀ (lt : LongTermRecord) (gs : List String), lt.confirmedGoals.Nodup →
        (detectConfirmedGoals lt gs).confirmedGoals.Nodup) ∧
    (∀ (lt : LongTermRecord) (hs : List String), lt.confirmedHabits.Nodup →
        (detectHabits lt hs).confirmedHabits.Nodup) := by
  refine ⟨?_, ?_, detectConfirmedGoals_prefix_mono, detectHabits_prefix_mono,
    detectConfirmedGoals_nodup, detectHabits_nodup⟩
  · intro uid g n
    cases n with
    | zero => simp [defaultLongTerm]
    | succ k => rw [confirmGoal_iter_closed]
  · intro uid h n
    cases n with
    | zero => simp [defaultLongTerm]
    | succ k => rw [confirmHabit_iter_closed]

/-- C5, witness: the theorem applied at a concrete goal/habit string — the
3rd (resp. 5th) occurrence confirms, and the fresh record's confirmed lists
are duplicate-free after one update. -/
theorem c5_witness :
    (((fun lt => detectConfirmedGoals lt ["выучить lean"])^[3]
        (defaultLongTerm 1)).confirmedGoals
      = if 3 ≤ 3 then ["выучить lean"] else []) ∧
    (((fun lt => detectHabits lt ["бег"])^[5]
        (defaultLongTerm 1)).confirmedHabits
      = if 5 ≤ 5 then ["бег"] else []) ∧
    ((defaultLongTerm 1).confirmedGoals <+:
      (detectConfirmedGoals (defaultLongTerm 1)
        ["выучить lean"]).confirmedGoals) ∧
    ((defaultLongTerm 1).confirmedHabits <+:
      (detectHabits (defaultLongTerm 1) ["бег"]).confirmedHabits) ∧
    ((detectConfirmedGoals (defaultLongTerm 1)
        ["выучить lean"]).confirmedGoals.Nodup) ∧
    ((detectHabits (defaultLongTerm 1) ["бег"]).confirmedHabits.Nodup) :=
  ⟨c5_confirmation_threshold_exact.1 1 "выучить lean" 3,
   c5_confirmation_threshold_exact.2.1 1 "бег" 5,
   c5_confirmation_threshold_exact.2.2.1 _ _,
   c5_confirmation_threshold_exact.2.2.2.1 _ _,
   c5_confirmation_threshold_exact.2.2.2.2.1 _ _ (by simp [defaultLongTerm]),
   c5_confirmation_threshold_exact.2.2.2.2.2 _ _ (by simp [defaultLongTerm])⟩

theorem stringAppend_ne_empty_left (a b : String) (h : a ≠ "") :
    a ++ b ≠ "" := by
  intro hab
  apply h
  have hd := congrArg String.data hab
  rw [String.data_append] at hd
  have h1 : a.data = [] := (List.append_eq_nil.mp hd).1
  cases a with
  | mk l => subst h1; rfl

theorem joinLines_cons_ne_empty (x : String) (xs : List String)
    (hx : x ≠ "") : joinLines (x :: xs) ≠ "" := by
  cases xs with
  | nil => exact hx
  | cons y ys =>
    exact stringAppend_ne_empty_left _ _
      (stringAppend_ne_empty_left _ _ hx)

/-- C8: `build_super_context` is a total function of the user's state — in
this embedding every lookup is defaulted exactly as the source defaults
every key on `init_user` — and its result is never the empty string: for
EVERY profile and long-term record (in particular the brand-new user's
all-default state) the first summary line is the non-empty literal prefix
`Главная цель: ...`, so the joined context is non-empty. -/
theorem c8_buildSuperContext_total_nonempty :
    ∀ (now : Int) (p : Profile) (lt : LongTermRecord),
      buildSuperContext now p lt ≠ "" := by
  intro now p lt
  exact joinLines_cons_ne_empty _ _
    (stringAppend_ne_empty_left _ _ (by decide))

theorem round_le_intBound {y : ℚ} {n : ℤ} (h : y ≤ (n : ℚ)) : round y ≤ n := by
  rw [round_eq]
  have hlt : ⌊y + 1/2⌋ < n + 1 := Int.floor_lt.mpr (by
    have : ((n + 1 : ℤ) : ℚ) = (n : ℚ) + 1 := by push_cast; ring
    rw [this]; linarith)
  omega

theorem intBound_le_round {y : ℚ} {n : ℤ} (h : (n : ℚ) ≤ y) : n ≤ round y := by
  rw [round_eq]
  exact Int.le_floor.mpr (by linarith)

theorem round3_le_of_le {x : ℚ} {n : ℤ} (h : x ≤ (n : ℚ) / 1000) :
    round3 x ≤ (n : ℚ) / 1000 := by
  have h1000 : (0 : ℚ) < 1000 := by norm_num
  have hx : x * 1000 ≤ (n : ℚ) := (le_div_iff₀ h1000).mp h
  unfold round3
  exact (div_le_div_iff_of_pos_right h1000).mpr (by exact_mod_cast round_le_intBound hx)

theorem le_round3_of_le {x : ℚ} {n : ℤ} (h : (n : ℚ) / 1000 ≤ x) :
    (n : ℚ) / 1000 ≤ round3 x := by
  have h1000 : (0 : ℚ) < 1000 := by norm_num
  have hx : (n : ℚ) ≤ x * 1000 := (div_le_iff₀ h1000).mp h
  unfold round3
  exact (div_le_div_iff_of_pos_right h1000).mpr (by exact_mod_cast intBound_le_round hx)

theorem tone_frac_bounds (P N : ℕ) :
    -1 ≤ ((P : ℚ) - (N : ℚ)) / ((max (P + N) 1 : ℕ) : ℚ) ∧
      ((P : ℚ) - (N : ℚ)) / ((max (P + N) 1 : ℕ) : ℚ) ≤ 1 := by
  have hD1 : (1 : ℚ) ≤ ((max (P + N) 1 : ℕ) : ℚ) := by
    exact_mod_cast le_max_right (P + N) 1
  have hD0 : (0 : ℚ) < ((max (P + N) 1 : ℕ) : ℚ) := lt_of_lt_of_le one_pos hD1
  have hPD : (P : ℚ) + (N : ℚ) ≤ ((max (P + N) 1 : ℕ) : ℚ) := by
    exact_mod_cast le_max_left (P + N) 1
  have h0P : (0 : ℚ) ≤ (P : ℚ) := Nat.cast_nonneg P
  have h0N : (0 : ℚ) ≤ (N : ℚ) := Nat.cast_nonneg N
  constructor
  · rw [le_div_iff₀ hD0]
    linarith
  · rw [div_le_one hD0]
    linarith

theorem detectTone_mem (text : String) :
    -1 ≤ detectTone text ∧ detectTone text ≤ 1 := by
  unfold detectTone
  simp only
  split
  · norm_num
  · exact tone_frac_bounds _ _

theorem updateScores_bounds (p : Profile) (tone : ℚ) (trig : List String)
    (hm1 : -1 ≤ p.moodScore) (hm2 : p.moodScore ≤ 1)
    (ht1 : -1 ≤ tone) (ht2 : tone ≤ 1) :
    (-1 ≤ (updateScores p tone trig).moodScore ∧
      (updateScores p tone trig).moodScore ≤ 1) ∧
    (-1 ≤ (updateScores p tone trig).progressScore ∧
      (updateScores p tone trig).progressScore ≤ 3/2) := by
  unfold updateScores
  refine ⟨⟨?_, ?_⟩, ?_, ?_⟩
  · calc (-1 : ℚ) = ((-1000 : ℤ) : ℚ) / 1000 := by norm_num
      _ ≤ _ := le_round3_of_le (by push_cast; nlinarith)
  · calc round3 (p.moodScore * (8/10) + tone * (2/10))
        ≤ ((1000 : ℤ) : ℚ) / 1000 :=
          round3_le_of_le (by push_cast; nlinarith)
      _ = 1 := by norm_num
  · calc (-1 : ℚ) = ((-1000 : ℤ) : ℚ) / 1000 := by norm_num
      _ ≤ _ := le_round3_of_le
        (by push_cast; exact le_trans (by norm_num) (le_max_left _ _))
  · refine le_trans (@round3_le_of_le _ 1500 ?_) (by norm_num)
    push_cast
    exact max_le (by norm_num) (le_trans (min_le_left _ _) (by norm_num))

theorem moodScore_after_post (now : Int) (p : Profile) (text : String)
    (trig : List String) (obsNew : List Obs) :
    ({ markImportant now p text trig with observations := obsNew }).moodScore
      = p.moodScore := by
  unfold markImportant; split <;> rfl

theorem progressScore_after_post (now : Int) (p : Profile) (text : String)
    (trig : List String) (obsNew : List Obs) :
    ({ markImportant now p text trig with
        observations := obsNew }).progressScore
      = p.progressScore := by
  unfold markImportant; split <;> rfl

theorem addObservation_scores_mem (now : Int)
    (st : Profile × LongTermRecord) (text : String)
    (hm1 : -1 ≤ st.1.moodScore) (hm2 : st.1.moodScore ≤ 1)
    (_hp1 : -1 ≤ st.1.progressScore) (_hp2 : st.1.progressScore ≤ 3/2) :
    (-1 ≤ (addObservation now st text).1.moodScore ∧
      (addObservation now st text).1.moodScore ≤ 1) ∧
    (-1 ≤ (addObservation now st text).1.progressScore ∧
      (addObservation now st text).1.progressScore ≤ 3/2) := by
  obtain ⟨ht1, ht2⟩ := detectTone_mem text
  simp only [addObservation]
  rw [moodScore_after_post, progressScore_after_post]
  exact updateScores_bounds _ _ _ hm1 hm2 ht1 ht2

/-- C2: for every sequence of recorded messages (each processed by the
`add_observation` pipeline), after every update `mood_score` lies in
`[-1, 1]` and `progress_score` lies in `[-1, 1.5]`: the update keeps the
mood inside its range because the new value is the rounding of a convex
combination of the old mood and the tone (itself in `[-1, 1]`), and the
progress update is clamped to `[-1, 1.5]` before rounding.  Every prefix of
a message sequence is itself such a sequence, so this covers the state
after every update. -/
theorem c2_scores_stay_in_range :
    ∀ (uid : Int) (msgs : List (Int × String)),
      -1 ≤ (msgs.foldl (fun st m => addObservation m.1 st m.2)
          (initProfile uid, defaultLongTerm uid)).1.moodScore ∧
      (msgs.foldl (fun st m => addObservation m.1 st m.2)
          (initProfile uid, defaultLongTerm uid)).1.moodScore ≤ 1 ∧
      -1 ≤ (msgs.foldl (fun st m => addObservation m.1 st m.2)
          (initProfile uid, defaultLongTerm uid)).1.progressScore ∧
      (msgs.foldl (fun st m => addObservation m.1 st m.2)
          (initProfile uid, defaultLongTerm uid)).1.progressScore ≤ 3/2 := by
  intro uid msgs
  suffices h : ∀ (l : List (Int × String)) (st : Profile × LongTermRecord),
      (-1 ≤ st.1.moodScore ∧ st.1.moodScore ≤ 1 ∧
        -1 ≤ st.1.progressScore ∧ st.1.progressScore ≤ 3/2) →
      (-1 ≤ (l.foldl (fun st m => addObservation m.1 st m.2) st).1.moodScore ∧
        (l.foldl (fun st m => addObservation m.1 st m.2) st).1.moodScore ≤ 1 ∧
        -1 ≤ (l.foldl (fun st m =>
          addObservation m.1 st m.2) st).1.progressScore ∧
        (l.foldl (fun st m =>
          addObservation m.1 st m.2) st).1.progressScore ≤ 3/2) by
    refine h msgs _ ?_
    refine ⟨?_, ?_, ?_, ?_⟩ <;> show _ ≤ _ <;> norm_num [initProfile]
  intro l
  induction l with
  | nil => intro st h; exact h
  | cons hd tl ih =>
    intro st h
    obtain ⟨h1, h2, h3, h4⟩ := h
    obtain ⟨⟨a, b⟩, c, d⟩ := addObservation_scores_mem hd.1 st hd.2 h1 h2 h3 h4
    exact ih _ ⟨a, b, c, d⟩

theorem countActivations_append_ev (l : List Event) (t : Int)
    (s name : String) :
    countActivations (l ++ [Event.ev t s]) name =
      countActivations l name +
        (if s = name ++ "_activated" then 1 else 0) := by
  simp only [countActivations, List.filter_append]
  split <;> simp_all

theorem dictGet_dictSet_ne {β : Type} (d : List (String × β))
    (k k' : String) (v dflt : β) (h : k ≠ k') :
    dictGet (dictSet d k v) k' dflt = dictGet d k' dflt := by
  induction d with
  | nil => simp [dictSet, dictGet, List.find?, h]
  | cons hd tl ih =>
    obtain ⟨k0, v0⟩ := hd
    by_cases hk : k0 = k
    · subst hk
      simp only [dictSet, if_pos rfl]
      simp [dictGet, List.find?, h, ih]
    · simp only [dictSet, if_neg hk]
      by_cases hk' : k0 = k'
      · simp [dictGet, List.find?, hk']
      · simp only [dictGet, List.find?] at ih ⊢
        simp [hk', ih]

theorem getScen_dictSet_ne (scs : List (String × ScenarioState))
    (k k' : String) (v : ScenarioState) (h : k ≠ k') :
    getScen (dictSet scs k v) k' = getScen scs k' :=
  dictGet_dictSet_ne scs k k' v _ h

theorem deactivate_frame (name : String) (st : Profile × LongTermRecord) :
    (deactivate name st).1.importantEvents = st.1.importantEvents ∧
    (deactivate name st).1.moodScore = st.1.moodScore ∧
    (deactivate name st).1.progressScore = st.1.progressScore ∧
    (deactivate name st).1.observations = st.1.observations ∧
    (deactivate name st).2 = st.2 := by
  simp only [deactivate]
  split <;> exact ⟨rfl, rfl, rfl, rfl, rfl⟩

theorem deactivate_getScen_ne (name name' : String)
    (st : Profile × LongTermRecord) (h : name ≠ name') :
    getScen (deactivate name st).1.scenarios name'
      = getScen st.1.scenarios name' := by
  simp only [deactivate]
  split
  · exact getScen_dictSet_ne _ _ _ _ h
  · rfl

theorem activate_getScen_ne (now : Int) (name name' : String)
    (st : Profile × LongTermRecord) (h : name ≠ name') :
    getScen (activate now name st).1.scenarios name'
      = getScen st.1.scenarios name' :=
  getScen_dictSet_ne _ _ _ _ h

theorem lowMoodStage_frame (now : Int) (st : Profile × LongTermRecord) :
    (lowMoodStage now st).1.moodScore = st.1.moodScore ∧
    (lowMoodStage now st).1.progressScore = st.1.progressScore ∧
    (lowMoodStage now st).1.observations = st.1.observations := by
  simp only [lowMoodStage]
  split
  · split
    · exact ⟨rfl, rfl, rfl⟩
    · exact ⟨rfl, rfl, rfl⟩
  · obtain ⟨_, h2, h3, h4, _⟩ := deactivate_frame "LowMoodSupport" st
    exact ⟨h2, h3, h4⟩

theorem productivityStage_frame (now : Int) (st : Profile × LongTermRecord) :
    (productivityStage now st).1.moodScore = st.1.moodScore ∧
    (productivityStage now st).1.progressScore = st.1.progressScore ∧
    (productivityStage now st).1.observations = st.1.observations := by
  simp only [productivityStage]
  split
  · split
    · exact ⟨rfl, rfl, rfl⟩
    · exact ⟨rfl, rfl, rfl⟩
  · obtain ⟨_, h2, h3, h4, _⟩ := deactivate_frame "ProductivityPush" st
    exact ⟨h2, h3, h4⟩

theorem financialStage_frame (now : Int) (st : Profile × LongTermRecord) :
    (financialStage now st).1.moodScore = st.1.moodScore ∧
    (financialStage now st).1.progressScore = st.1.progressScore ∧
    (financialStage now st).1.observations = st.1.observations := by
  simp only [financialStage]
  split
  · split
    · exact ⟨rfl, rfl, rfl⟩
    · exact ⟨rfl, rfl, rfl⟩
  · obtain ⟨_, h2, h3, h4, _⟩ := deactivate_frame "FinancialFocus" st
    exact ⟨h2, h3, h4⟩

theorem socialStage_frame (now : Int) (st : Profile × LongTermRecord) :
    (socialStage now st).1.moodScore = st.1.moodScore ∧
    (socialStage now st).1.progressScore = st.1.progressScore ∧
    (socialStage now st).1.observations = st.1.observations := by
  simp only [socialStage]
  split
  · exact ⟨rfl, rfl, rfl⟩
  · obtain ⟨_, h2, h3, h4, _⟩ := deactivate_frame "SocialBonding" st
    exact ⟨h2, h3, h4⟩

theorem lowMoodStage_count (now : Int) (st : Profile × LongTermRecord)
    (n : String)
    (h1 : ("LowMoodSupport_activated" : String) ≠ n ++ "_activated")
    (h2 : ("mood_low_detected" : String) ≠ n ++ "_activated") :
    countActivations (lowMoodStage now st).1.importantEvents n
        = countActivations st.1.importantEvents n ∧
    countActivations (lowMoodStage now st).2.importantEvents n
        = countActivations st.2.importantEvents n := by
  simp only [lowMoodStage]
  split
  · split
    · simp only [activate]
      constructor
      · rw [countActivations_append_ev, countActivations_append_ev]
        simp [h1, h2]
      · rw [countActivations_append_ev]
        simp [h1]
    · exact ⟨rfl, rfl⟩
  · obtain ⟨he, _, _, _, hlt⟩ := deactivate_frame "LowMoodSupport" st
    rw [he, hlt]
    exact ⟨rfl, rfl⟩

theorem productivityStage_count (now : Int) (st : Profile × LongTermRecord)
    (n : String)
    (h1 : ("ProductivityPush_activated" : String) ≠ n ++ "_activated")
    (h2 : ("productivity_coach_day" : String) ≠ n ++ "_activated") :
    countActivations (productivityStage now st).1.importantEvents n
        = countActivations st.1.importantEvents n ∧
    countActivations (productivityStage now st).2.importantEvents n
        = countActivations st.2.importantEvents n := by
  simp only [productivityStage]
  split
  · split
    · simp only [activate]
      constructor
      · rw [countActivations_append_ev, countActivations_append_ev]
        simp [h1, h2]
      · rw [countActivations_append_ev]
        simp [h1]
    · exact ⟨rfl, rfl⟩
  · obtain ⟨he, _, _, _, hlt⟩ := deactivate_frame "ProductivityPush" st
    rw [he, hlt]
    exact ⟨rfl, rfl⟩

theorem financialStage_count (now : Int) (st : Profile × LongTermRecord)
    (n : String)
    (h1 : ("FinancialFocus_activated" : String) ≠ n ++ "_activated") :
    countActivations (financialStage now st).1.importantEvents n
        = countActivations st.1.importantEvents n ∧
    countActivations (financialStage now st).2.importantEvents n
        = countActivations st.2.importantEvents n := by
  simp only [financialStage]
  split
  · split
    · simp only [activate]
      constructor
      · rw [countActivations_append_ev]
        simp [h1]
      · rw [countActivations_append_ev]
        simp [h1]
    · exact ⟨rfl, rfl⟩
  · obtain ⟨he, _, _, _, hlt⟩ := deactivate_frame "FinancialFocus" st
    rw [he, hlt]
    exact ⟨rfl, rfl⟩

theorem socialStage_count (now : Int) (st : Profile × LongTermRecord)
    (n : String)
    (h1 : ("SocialBonding_activated" : String) ≠ n ++ "_activated") :
    countActivations (socialStage now st).1.importantEvents n
        = countActivations st.1.importantEvents n ∧
    countActivations (socialStage now st).2.importantEvents n
        = countActivations st.2.importantEvents n := by
  simp only [socialStage]
  split
  · simp only [activate]
    constructor
    · rw [countActivations_append_ev]
      simp [h1]
    · rw [countActivations_append_ev]
      simp [h1]
  · obtain ⟨he, _, _, _, hlt⟩ := deactivate_frame "SocialBonding" st
    rw [he, hlt]
    exact ⟨rfl, rfl⟩

theorem lowMoodStage_count_self (now : Int) (st : Profile × LongTermRecord)
    (h : (getScen st.1.scenarios "LowMoodSupport").state = SState.ACTIVE) :
    countActivations (lowMoodStage now st).1.importantEvents "LowMoodSupport"
        = countActivations st.1.importantEvents "LowMoodSupport" ∧
    countActivations (lowMoodStage now st).2.importantEvents "LowMoodSupport"
        = countActivations st.2.importantEvents "LowMoodSupport" := by
  simp only [lowMoodStage]
  split
  · rw [if_neg (by simp [h])]
    exact ⟨rfl, rfl⟩
  · obtain ⟨he, _, _, _, hlt⟩ := deactivate_frame "LowMoodSupport" st
    rw [he, hlt]
    exact ⟨rfl, rfl⟩

theorem productivityStage_count_self (now : Int)
    (st : Profile × LongTermRecord)
    (h : (getScen st.1.scenarios "ProductivityPush").state = SState.ACTIVE) :
    countActivations (productivityStage now st).1.importantEvents
        "ProductivityPush"
        = countActivations st.1.importantEvents "ProductivityPush" ∧
    countActivations (productivityStage now st).2.importantEvents
        "ProductivityPush"
        = countActivations st.2.importantEvents "ProductivityPush" := by
  simp only [productivityStage]
  split
  · rw [if_neg (by simp [h])]
    exact ⟨rfl, rfl⟩
  · obtain ⟨he, _, _, _, hlt⟩ := deactivate_frame "ProductivityPush" st
    rw [he, hlt]
    exact ⟨rfl, rfl⟩

theorem financialStage_count_self (now : Int) (st : Profile × LongTermRecord)
    (h : (getScen st.1.scenarios "FinancialFocus").state = SState.ACTIVE) :
    countActivations (financialStage now st).1.importantEvents
        "FinancialFocus"
        = countActivations st.1.importantEvents "FinancialFocus" ∧
    countActivations (financialStage now st).2.importantEvents
        "FinancialFocus"
        = countActivations st.2.importantEvents "FinancialFocus" := by
  simp only [financialStage]
  split
  · rw [if_neg (by simp [h])]
    exact ⟨rfl, rfl⟩
  · obtain ⟨he, _, _, _, hlt⟩ := deactivate_frame "FinancialFocus" st
    rw [he, hlt]
    exact ⟨rfl, rfl⟩

theorem socialStage_count_social (now : Int) (st : Profile × LongTermRecord)
    (hc : 2 ≤ countTagMentions (recentObs now st.1) "relationships" ∧
      st.1.moodScore > -(3/10)) :
    countActivations (socialStage now st).1.importantEvents "SocialBonding"
        = countActivations st.1.importantEvents "SocialBonding" + 1 ∧
    countActivations (socialStage now st).2.importantEvents "SocialBonding"
        = countActivations st.2.importantEvents "SocialBonding" + 1 := by
  simp only [socialStage]
  rw [if_pos hc]
  simp only [activate]
  constructor <;> (rw [countActivations_append_ev]; simp)

theorem lowMoodStage_getScen (now : Int) (st : Profile × LongTermRecord)
    (n : String) (h : "LowMoodSupport" ≠ n) :
    getScen (lowMoodStage now st).1.scenarios n
      = getScen st.1.scenarios n := by
  simp only [lowMoodStage]
  split
  · split
    · simp only [activate]
      exact getScen_dictSet_ne _ _ _ _ h
    · rfl
  · exact deactivate_getScen_ne _ _ _ h

theorem productivityStage_getScen (now : Int)
    (st : Profile × LongTermRecord) (n : String)
    (h : "ProductivityPush" ≠ n) :
    getScen (productivityStage now st).1.scenarios n
      = getScen st.1.scenarios n := by
  simp only [productivityStage]
  split
  · split
    · simp only [activate]
      exact getScen_dictSet_ne _ _ _ _ h
    · rfl
  · exact deactivate_getScen_ne _ _ _ h

theorem financialStage_getScen (now : Int) (st : Profile × LongTermRecord)
    (n : String) (h : "FinancialFocus" ≠ n) :
    getScen (financialStage now st).1.scenarios n
      = getScen st.1.scenarios n := by
  simp only [financialStage]
  split
  · split
    · simp only [activate]
      exact getScen_dictSet_ne _ _ _ _ h
    · rfl
  · exact deactivate_getScen_ne _ _ _ h

/-- C3, amended: for the three guarded scenarios (LowMoodSupport,
ProductivityPush, FinancialFocus) re-evaluation while the scenario is
already ACTIVE is idempotent — no new `"<name>_activated"` record is
appended to either per-user event log, whether the condition still holds
(the `state != ACTIVE` guard skips `_activate`) or not (deactivation logs
nothing).  For SocialBonding the guard is missing: every evaluation while
its condition holds appends ANOTHER activation record to both logs — even
when the scenario is already ACTIVE — so its activation is not
idempotent. -/
theorem c3_amended :
    ∀ (now : Int) (st : Profile × LongTermRecord),
      ((getScen st.1.scenarios "LowMoodSupport").state = SState.ACTIVE →
        countActivations (evaluateScenarios now st).1.importantEvents
            "LowMoodSupport"
          = countActivations st.1.importantEvents "LowMoodSupport" ∧
        countActivations (evaluateScenarios now st).2.importantEvents
            "LowMoodSupport"
          = countActivations st.2.importantEvents "LowMoodSupport") ∧
      ((getScen st.1.scenarios "ProductivityPush").state = SState.ACTIVE →
        countActivations (evaluateScenarios now st).1.importantEvents
            "ProductivityPush"
          = countActivations st.1.importantEvents "ProductivityPush" ∧
        countActivations (evaluateScenarios now st).2.importantEvents
            "ProductivityPush"
          = countActivations st.2.importantEvents "ProductivityPush") ∧
      ((getScen st.1.scenarios "FinancialFocus").state = SState.ACTIVE →
        countActivations (evaluateScenarios now st).1.importantEvents
            "FinancialFocus"
          = countActivations st.1.importantEvents "FinancialFocus" ∧
        countActivations (evaluateScenarios now st).2.importantEvents
            "FinancialFocus"
          = countActivations st.2.importantEvents "FinancialFocus") ∧
      ((getScen st.1.scenarios "SocialBonding").state = SState.ACTIVE →
        2 ≤ countTagMentions (recentObs now st.1) "relationships" →
        st.1.moodScore > -(3/10) →
        countActivations (evaluateScenarios now st).1.importantEvents
            "SocialBonding"
          = countActivations st.1.importantEvents "SocialBonding" + 1 ∧
        countActivations (evaluateScenarios now st).2.importantEvents
            "SocialBonding"
          = countActivations st.2.importantEvents "SocialBonding" + 1) := by
  intro now st
  refine ⟨?_, ?_, ?_, ?_⟩
  · intro h
    simp only [evaluateScenarios]
    rw [(socialStage_count _ _ _ (by decide)).1,
      (financialStage_count _ _ _ (by decide)).1,
      (productivityStage_count _ _ _ (by decide) (by decide)).1,
      (lowMoodStage_count_self _ _ h).1,
      (socialStage_count _ _ _ (by decide)).2,
      (financialStage_count _ _ _ (by decide)).2,
      (productivityStage_count _ _ _ (by decide) (by decide)).2,
      (lowMoodStage_count_self _ _ h).2]
    exact ⟨rfl, rfl⟩
  · intro h
    have h2 : (getScen (lowMoodStage now st).1.scenarios
        "ProductivityPush").state = SState.ACTIVE := by
      rw [lowMoodStage_getScen _ _ _ (by decide)]
      exact h
    simp only [evaluateScenarios]
    rw [(socialStage_count _ _ _ (by decide)).1,
      (financialStage_count _ _ _ (by decide)).1,
      (productivityStage_count_self _ _ h2).1,
      (lowMoodStage_count _ _ _ (by decide) (by decide)).1,
      (socialStage_count _ _ _ (by decide)).2,
      (financialStage_count _ _ _ (by decide)).2,
      (productivityStage_count_self _ _ h2).2,
      (lowMoodStage_count _ _ _ (by decide) (by decide)).2]
    exact ⟨rfl, rfl⟩
  · intro h
    have h2 : (getScen (productivityStage now
        (lowMoodStage now st)).1.scenarios "FinancialFocus").state
        = SState.ACTIVE := by
      rw [productivityStage_getScen _ _ _ (by decide),
        lowMoodStage_getScen _ _ _ (by decide)]
      exact h
    simp only [evaluateScenarios]
    rw [(socialStage_count _ _ _ (by decide)).1,
      (financialStage_count_self _ _ h2).1,
      (productivityStage_count _ _ _ (by decide) (by decide)).1,
      (lowMoodStage_count _ _ _ (by decide) (by decide)).1,
      (socialStage_count _ _ _ (by decide)).2,
      (financialStage_count_self _ _ h2).2,
      (productivityStage_count _ _ _ (by decide) (by decide)).2,
      (lowMoodStage_count _ _ _ (by decide) (by decide)).2]
    exact ⟨rfl, rfl⟩
  · intro _hactive hc1 hc2
    have hobs : (financialStage now (productivityStage now
        (lowMoodStage now st))).1.observations = st.1.observations := by
      rw [(financialStage_frame _ _).2.2, (productivityStage_frame _ _).2.2,
        (lowMoodStage_frame _ _).2.2]
    have hmood : (financialStage now (productivityStage now
        (lowMoodStage now st))).1.moodScore = st.1.moodScore := by
      rw [(financialStage_frame _ _).1, (productivityStage_frame _ _).1,
        (lowMoodStage_frame _ _).1]
    have hcond : 2 ≤ countTagMentions (recentObs now
        (financialStage now (productivityStage now
          (lowMoodStage now st))).1) "relationships" ∧
        (financialStage now (productivityStage now
          (lowMoodStage now st))).1.moodScore > -(3/10) := by
      constructor
      · unfold recentObs
        rw [hobs]
        exact hc1
      · rw [hmood]
        exact hc2
    simp only [evaluateScenarios]
    rw [(socialStage_count_social _ _ hcond).1,
      (financialStage_count _ _ _ (by decide)).1,
      (productivityStage_count _ _ _ (by decide) (by decide)).1,
      (lowMoodStage_count _ _ _ (by decide) (by decide)).1,
      (socialStage_count_social _ _ hcond).2,
      (financialStage_count _ _ _ (by decide)).2,
      (productivityStage_count _ _ _ (by decide) (by decide)).2,
      (lowMoodStage_count _ _ _ (by decide) (by decide)).2]
    exact ⟨rfl, rfl⟩

theorem evaluateScenarios_frame (now : Int) (st : Profile × LongTermRecord) :
    (evaluateScenarios now st).1.moodScore = st.1.moodScore ∧
    (evaluateScenarios now st).1.progressScore = st.1.progressScore ∧
    (evaluateScenarios now st).1.observations = st.1.observations := by
  simp only [evaluateScenarios]
  refine ⟨?_, ?_, ?_⟩
  · rw [(socialStage_frame _ _).1, (financialStage_frame _ _).1,
      (productivityStage_frame _ _).1, (lowMoodStage_frame _ _).1]
  · rw [(socialStage_frame _ _).2.1, (financialStage_frame _ _).2.1,
      (productivityStage_frame _ _).2.1, (lowMoodStage_frame _ _).2.1]
  · rw [(socialStage_frame _ _).2.2, (financialStage_frame _ _).2.2,
      (productivityStage_frame _ _).2.2, (lowMoodStage_frame _ _).2.2]

theorem evaluateScenarios_social_bump (now : Int)
    (st : Profile × LongTermRecord)
    (hc1 : 2 ≤ countTagMentions (recentObs now st.1) "relationships")
    (hc2 : st.1.moodScore > -(3/10)) :
    countActivations (evaluateScenarios now st).1.importantEvents
        "SocialBonding"
      = countActivations st.1.importantEvents "SocialBonding" + 1 := by
  have hobs : (financialStage now (productivityStage now
      (lowMoodStage now st))).1.observations = st.1.observations := by
    rw [(financialStage_frame _ _).2.2, (productivityStage_frame _ _).2.2,
      (lowMoodStage_frame _ _).2.2]
  have hmood : (financialStage now (productivityStage now
      (lowMoodStage now st))).1.moodScore = st.1.moodScore := by
    rw [(financialStage_frame _ _).1, (productivityStage_frame _ _).1,
      (lowMoodStage_frame _ _).1]
  have hcond : 2 ≤ countTagMentions (recentObs now
      (financialStage now (productivityStage now
        (lowMoodStage now st))).1) "relationships" ∧
      (financialStage now (productivityStage now
        (lowMoodStage now st))).1.moodScore > -(3/10) := by
    constructor
    · unfold recentObs
      rw [hobs]
      exact hc1
    · rw [hmood]
      exact hc2
  simp only [evaluateScenarios]
  rw [(socialStage_count_social _ _ hcond).1,
    (financialStage_count _ _ _ (by decide)).1,
    (productivityStage_count _ _ _ (by decide) (by decide)).1,
    (lowMoodStage_count _ _ _ (by decide) (by decide)).1]

/-- A user state with two recent relationship-tagged observations, neutral
mood and all scenarios in their default INACTIVE state. -/
def c3CounterState : Profile × LongTermRecord :=
  ({ initProfile 8 with
      observations :=
        [{ ts := 0, message := "вчера виделся с друзьями", tone := 0,
           tags := ["relationships"] },
         { ts := 0, message := "провел время с семьей", tone := 0,
           tags := ["relationships"] }] },
   defaultLongTerm 8)

/-- C3, counterexample: the claim fails for SocialBonding.  With two recent
relationship observations and neutral mood, the first evaluation activates
SocialBonding (one activation record); evaluating again while the scenario
is ACTIVE and its condition still holds is NOT a no-op: the unguarded
`_activate` call appends a second `SocialBonding_activated` record, so the
log holds two entries instead of the claimed one. -/
theorem c3_counterexample :
    countActivations
        (evaluateScenarios 0 (evaluateScenarios 0 c3CounterState)).1.importantEvents
        "SocialBonding" = 2 := by
  have hc1 : 2 ≤ countTagMentions (recentObs 0 c3CounterState.1)
      "relationships" := by decide
  have hc2 : c3CounterState.1.moodScore > -(3/10) := by
    show (0 : ℚ) > -(3/10)
    norm_num
  have hframe := evaluateScenarios_frame 0 c3CounterState
  have hc1' : 2 ≤ countTagMentions
      (recentObs 0 (evaluateScenarios 0 c3CounterState).1)
      "relationships" := by
    unfold recentObs at hc1 ⊢
    rw [hframe.2.2]
    exact hc1
  have hc2' : (evaluateScenarios 0 c3CounterState).1.moodScore > -(3/10) := by
    rw [hframe.1]
    exact hc2
  rw [evaluateScenarios_social_bump 0 _ hc1' hc2',
    evaluateScenarios_social_bump 0 _ hc1 hc2]
  decide

/-- A user state with all four scenarios ACTIVE, two recent
relationship-tagged observations and neutral mood. -/
def c3WitnessState : Profile × LongTermRecord :=
  ({ initProfile 7 with
      scenarios :=
        [("LowMoodSupport",
          { state := SState.ACTIVE, lastActivation := some 0 }),
         ("ProductivityPush",
          { state := SState.ACTIVE, lastActivation := some 0 }),
         ("FinancialFocus",
          { state := SState.ACTIVE, lastActivation := some 0 }),
         ("SocialBonding",
          { state := SState.ACTIVE, lastActivation := some 0 })],
      observations :=
        [{ ts := 0, message := "гулял с друзьями", tone := 0,
           tags := ["relationships"] },
         { ts := 0, message := "ужин с семьей", tone := 0,
           tags := ["relationships"] }] },
   defaultLongTerm 7)

/-- C3, witness: the amended theorem applied at a concrete state with every
scenario ACTIVE and the SocialBonding condition holding. -/
theorem c3_amended_witness :
    (countActivations (evaluateScenarios 0 c3WitnessState).1.importantEvents
        "LowMoodSupport"
      = countActivations c3WitnessState.1.importantEvents "LowMoodSupport" ∧
     countActivations (evaluateScenarios 0 c3WitnessState).2.importantEvents
        "LowMoodSupport"
      = countActivations c3WitnessState.2.importantEvents "LowMoodSupport") ∧
    (countActivations (evaluateScenarios 0 c3WitnessState).1.importantEvents
        "ProductivityPush"
      = countActivations c3WitnessState.1.importantEvents "ProductivityPush" ∧
     countActivations (evaluateScenarios 0 c3WitnessState).2.importantEvents
        "ProductivityPush"
      = countActivations c3WitnessState.2.importantEvents "ProductivityPush") ∧
    (countActivations (evaluateScenarios 0 c3WitnessState).1.importantEvents
        "FinancialFocus"
      = countActivations c3WitnessState.1.importantEvents "FinancialFocus" ∧
     countActivations (evaluateScenarios 0 c3WitnessState).2.importantEvents
        "FinancialFocus"
      = countActivations c3WitnessState.2.importantEvents "FinancialFocus") ∧
    (countActivations (evaluateScenarios 0 c3WitnessState).1.importantEvents
        "SocialBonding"
      = countActivations c3WitnessState.1.importantEvents "SocialBonding" + 1 ∧
     countActivations (evaluateScenarios 0 c3WitnessState).2.importantEvents
        "SocialBonding"
      = countActivations c3WitnessState.2.importantEvents "SocialBonding"
          + 1) := by
  have h := c3_amended 0 c3WitnessState
  refine ⟨h.1 (by decide), h.2.1 (by decide), h.2.2.1 (by decide),
    h.2.2.2 (by decide) (by decide) ?_⟩
  show (0 : ℚ) > -(3/10)
  norm_num

theorem takeLast_length_le {α : Type} (n : Nat) (l : List α) :
    (takeLast n l).length ≤ n := by
  simp only [takeLast, List.length_drop]
  omega

theorem takeLast_full_append {α : Type} (n : Nat) (l : List α) (x : α)
    (h : l.length = n) (hn : 0 < n) :
    takeLast n (l ++ [x]) = l.tail ++ [x] := by
  unfold takeLast
  rw [List.length_append, h]
  have h1 : n + [x].length - n = 1 := by simp
  rw [h1, List.drop_append_of_le_length (by omega), List.drop_one]

theorem markImportant_observations (now : Int) (p : Profile) (text : String)
    (tags : List String) :
    (markImportant now p text tags).observations = p.observations := by
  unfold markImportant; split <;> rfl

theorem markImportant_events_le (now : Int) (p : Profile) (text : String)
    (tags : List String) :
    (markImportant now p text tags).importantEvents.length
      ≤ max p.importantEvents.length MAX_EVENTS := by
  unfold markImportant
  split
  · exact le_trans (takeLast_length_le _ _) (le_max_right _ _)
  · exact le_max_left _ _

theorem addObservation_obs_eq (now : Int) (st : Profile × LongTermRecord)
    (text : String) :
    ∃ o : Obs, (addObservation now st text).1.observations
      = takeLast MAX_OBSERVATIONS (st.1.observations ++ [o]) := by
  refine ⟨{ ts := now, message := text, tone := detectTone text,
            tags := (triggeredOf (updatePatterns
              { st.1 with messageCount := st.1.messageCount + 1,
                          lastMessage := some text } text).1 text) }, ?_⟩
  simp only [addObservation]
  rw [markImportant_observations]
  rfl

theorem addObservation_events_le (now : Int) (st : Profile × LongTermRecord)
    (text : String) :
    (addObservation now st text).1.importantEvents.length
      ≤ max st.1.importantEvents.length MAX_EVENTS := by
  simp only [addObservation]
  exact markImportant_events_le _ _ _ _

set_option maxRecDepth 10000 in
/-- C4, amended: the observations buffer and the persisted dialog history
are trimmed to their caps (200) with FIFO eviction on every append — when
the buffer is full, the oldest entry is dropped and the new one appended.
The important-events buffer is trimmed to its cap (50) only by the message
pipeline (`_mark_important`); one `add_observation` never grows it above
`max previous 50`.  But scenario activation (`_activate`,
`evaluate_scenarios`) appends event records WITHOUT trimming, so the
50-entry cap claimed for `important_events` can be exceeded (see the
counterexample: 52 entries after one evaluation). -/
theorem c4_amended :
    (∀ (now : Int) (st : Profile × LongTermRecord) (text : String),
        ((addObservation now st text).1.observations).length
          ≤ MAX_OBSERVATIONS) ∧
    (∀ (now : Int) (st : Profile × LongTermRecord) (text : String),
        st.1.observations.length = MAX_OBSERVATIONS →
        ∃ o : Obs, (addObservation now st text).1.observations
          = st.1.observations.tail ++ [o]) ∧
    (∀ (now : Int) (s : SysState) (role content : String),
        ((appendMessage now s role content).profile.dialogHistory).length
          ≤ MAX_DIALOG_HISTORY) ∧
    (∀ (now : Int) (s : SysState) (role content : String),
        s.profile.dialogHistory.length = MAX_DIALOG_HISTORY →
        (appendMessage now s role content).profile.dialogHistory
          = s.profile.dialogHistory.tail ++
              [{ role := role, content := content }]) ∧
    (∀ (now : Int) (st : Profile × LongTermRecord) (text : String),
        ((addObservation now st text).1.importantEvents).length
          ≤ max st.1.importantEvents.length MAX_EVENTS) := by
  refine ⟨?_, ?_, ?_, ?_, addObservation_events_le⟩
  · intro now st text
    obtain ⟨o, ho⟩ := addObservation_obs_eq now st text
    rw [ho]
    exact takeLast_length_le _ _
  · intro now st text h
    obtain ⟨o, ho⟩ := addObservation_obs_eq now st text
    refine ⟨o, ?_⟩
    rw [ho]
    exact takeLast_full_append _ _ _ h (by norm_num [MAX_OBSERVATIONS])
  · intro now s role content
    exact takeLast_length_le _ _
  · intro now s role content h
    exact takeLast_full_append _ _ _ h (by norm_num [MAX_DIALOG_HISTORY])

set_option maxRecDepth 10000 in
/-- C4, witness: the amended theorem applied at concrete full buffers. -/
theorem c4_amended_witness :
    (((addObservation 0 (initProfile 2, defaultLongTerm 2)
        "привет").1.observations).length ≤ MAX_OBSERVATIONS) ∧
    (∃ o : Obs,
      (addObservation 0
        ({ initProfile 2 with observations :=
            (List.replicate MAX_OBSERVATIONS (⟨0, "x", 0, []⟩ : Obs)) },
         defaultLongTerm 2) "привет").1.observations
        = (List.replicate MAX_OBSERVATIONS (⟨0, "x", 0, []⟩ : Obs)).tail
            ++ [o]) ∧
    ((appendMessage 0
        { convo := [systemMessage],
          profile :=
            { initProfile 2 with dialogHistory :=
                (List.replicate MAX_DIALOG_HISTORY
                  (⟨"user", "x"⟩ : DialogMsg)) },
          longTerm := defaultLongTerm 2 } "user"
        "привет").profile.dialogHistory
      = (List.replicate MAX_DIALOG_HISTORY (⟨"user", "x"⟩ : DialogMsg)).tail
          ++ [⟨"user", "привет"⟩]) ∧
    (((addObservation 0 (initProfile 2, defaultLongTerm 2)
        "привет").1.importantEvents).length
      ≤ max (initProfile 2).importantEvents.length MAX_EVENTS) := by
  refine ⟨c4_amended.1 0 _ "привет", ?_, ?_, c4_amended.2.2.2.2 0 _ "привет"⟩
  · exact c4_amended.2.1 0 _ "привет" (by simp)
  · exact c4_amended.2.2.2.1 0 _ "user" "привет" (by simp)

theorem productivityStage_events_of_not (now : Int)
    (st : Profile × LongTermRecord)
    (h : ¬ (2 ≤ countTagMentions (recentObs now st.1) "growth" ∧
      st.1.progressScore < 3/10)) :
    (productivityStage now st).1.importantEvents
      = st.1.importantEvents := by
  simp only [productivityStage]
  rw [if_neg h]
  exact (deactivate_frame _ _).1

theorem financialStage_events_of_not (now : Int)
    (st : Profile × LongTermRecord)
    (h : ¬ 3 ≤ countTagMentions (recentObs now st.1) "finance") :
    (financialStage now st).1.importantEvents = st.1.importantEvents := by
  simp only [financialStage]
  rw [if_neg h]
  exact (deactivate_frame _ _).1

theorem socialStage_events_of_not (now : Int)
    (st : Profile × LongTermRecord)
    (h : ¬ (2 ≤ countTagMentions (recentObs now st.1) "relationships" ∧
      st.1.moodScore > -(3/10))) :
    (socialStage now st).1.importantEvents = st.1.importantEvents := by
  simp only [socialStage]
  rw [if_neg h]
  exact (deactivate_frame _ _).1

/-- A user state with a full important-events buffer (exactly 50 entries,
the cap), low mood and LowMoodSupport INACTIVE. -/
def c4CounterState : Profile × LongTermRecord :=
  ({ initProfile 9 with
      moodScore := -(1/2),
      importantEvents := (List.replicate 50 (Event.ev 0 "прошлое событие")) },
   defaultLongTerm 9)

/-- C4, counterexample: the claimed 50-entry cap on `important_events` is
violated by scenario activation.  Starting from a profile whose
important-events buffer already holds exactly 50 entries (its cap) with low
mood, one `evaluate_scenarios` appends the `LowMoodSupport_activated` and
`mood_low_detected` records WITHOUT trimming, leaving 52 > 50 entries. -/
theorem c4_counterexample :
    ((evaluateScenarios 0 c4CounterState).1.importantEvents).length = 52 ∧
    MAX_EVENTS <
      ((evaluateScenarios 0 c4CounterState).1.importantEvents).length := by
  have hlow : (lowMoodStage 0 c4CounterState).1.importantEvents
      = c4CounterState.1.importantEvents ++
        [Event.ev 0 ("LowMoodSupport" ++ "_activated"),
         Event.ev 0 "mood_low_detected"] := by
    have hcond : c4CounterState.1.moodScore < -(2/5) ∨
        ((takeLast 3 c4CounterState.1.observations).map Obs.tone ≠ [] ∧
          ∀ t ∈ (takeLast 3 c4CounterState.1.observations).map Obs.tone,
            t ≤ -(1/5)) := by
      left
      show -(1/2 : ℚ) < -(2/5)
      norm_num
    have hguard : (getScen c4CounterState.1.scenarios
        "LowMoodSupport").state ≠ SState.ACTIVE := by decide
    simp only [lowMoodStage]
    rw [if_pos hcond, if_pos hguard]
    simp [activate]
  have hobsA : (lowMoodStage 0 c4CounterState).1.observations = [] :=
    ((lowMoodStage_frame 0 c4CounterState).2.2).trans rfl
  have hA2 : (productivityStage 0
      (lowMoodStage 0 c4CounterState)).1.importantEvents
      = (lowMoodStage 0 c4CounterState).1.importantEvents := by
    refine productivityStage_events_of_not _ _ ?_
    intro hc
    have := hc.1
    rw [show recentObs 0 (lowMoodStage 0 c4CounterState).1 = [] by
      unfold recentObs; rw [hobsA]; rfl] at this
    exact absurd this (by decide)
  have hobsB : (productivityStage 0
      (lowMoodStage 0 c4CounterState)).1.observations = [] :=
    ((productivityStage_frame _ _).2.2).trans hobsA
  have hB2 : (financialStage 0 (productivityStage 0
      (lowMoodStage 0 c4CounterState))).1.importantEvents
      = (productivityStage 0
          (lowMoodStage 0 c4CounterState)).1.importantEvents := by
    refine financialStage_events_of_not _ _ ?_
    intro hc
    rw [show recentObs 0 (productivityStage 0
        (lowMoodStage 0 c4CounterState)).1 = [] by
      unfold recentObs; rw [hobsB]; rfl] at hc
    exact absurd hc (by decide)
  have hobsC : (financialStage 0 (productivityStage 0
      (lowMoodStage 0 c4CounterState))).1.observations = [] :=
    ((financialStage_frame _ _).2.2).trans hobsB
  have hC2 : (socialStage 0 (financialStage 0 (productivityStage 0
      (lowMoodStage 0 c4CounterState)))).1.importantEvents
      = (financialStage 0 (productivityStage 0
          (lowMoodStage 0 c4CounterState))).1.importantEvents := by
    refine socialStage_events_of_not _ _ ?_
    intro hc
    have := hc.1
    rw [show recentObs 0 (financialStage 0 (productivityStage 0
        (lowMoodStage 0 c4CounterState))).1 = [] by
      unfold recentObs; rw [hobsC]; rfl] at this
    exact absurd this (by decide)
  have hall : ((evaluateScenarios 0 c4CounterState).1.importantEvents).length
      = 52 := by
    simp only [evaluateScenarios]
    rw [hC2, hB2, hA2, hlow]
    simp [c4CounterState]
  exact ⟨hall, by rw [hall]; norm_num [MAX_EVENTS]⟩
